import Mathlib

set_option maxRecDepth 4000

/-!
Verification development for the conversational appointment-booking form
engine of ML_DOC_CHATBOT (`src/conversational_form.py`, with the
`AppointmentTool` wrapper of `src/tool_agents.py` and the validator
variants of `src/form_handler.py`).

The embedding is a shallow translation of the Python source.  External
collaborators of the core (the system clock `datetime.now()`, the
`dateparser` library, the `email_validator` library, and the writability
of the appointments log file) are modelled as an explicit `Env` record of
oracles; everything else - the regular expressions written in the source,
the validators, the state machine and its handlers - is translated
directly.  Dates are modelled as days since 1970-01-01 (proleptic
Gregorian calendar, valid for dates from 1970 on, which covers every
value the program produces).
-/

namespace MLDoc

/-! ### Python string basics -/

/-- The characters Python's `str.strip()` removes and `\s` matches (ASCII). -/
def isPySpace (c : Char) : Bool :=
  c = ' ' || c = '\t' || c = '\n' || c = '\r' || c = '\x0b' || c = '\x0c'

def pyStripList (cs : List Char) : List Char :=
  ((cs.dropWhile isPySpace).reverse.dropWhile isPySpace).reverse

/-- Python `str.strip()`. -/
def pyStrip (s : String) : String := String.mk (pyStripList s.toList)

/-- Python `str.lower()` (ASCII letters; the program only feeds it ASCII). -/
def pyLower (s : String) : String := String.mk (s.toList.map Char.toLower)

/-- Python `sub in hay` (substring containment). -/
def containsSub (hay sub : String) : Bool :=
  hay.toList.tails.any (fun t => sub.toList.isPrefixOf t)

def isAsciiAlpha (c : Char) : Bool :=
  ('A' ≤ c && c ≤ 'Z') || ('a' ≤ c && c ≤ 'z')

def isDigitCh (c : Char) : Bool := '0' ≤ c && c ≤ '9'

/-- A regex word character (`\w`), as used by `\b` boundaries. -/
def isWordCh (c : Char) : Bool := isAsciiAlpha c || isDigitCh c || c = '_'

/-- Python truthiness of an optional string (`None` and `""` are falsy). -/
def optTruthy : Option String → Bool
  | some s => s != ""
  | none => false

/-- Python `a or b` where `a` is an optional string and `b` a string. -/
def pyOr (o : Option String) (d : String) : String :=
  match o with
  | some s => if s == "" then d else s
  | none => d

/-- Rendering of an optional string inside a Python f-string (`None` prints
as "None"). -/
def optStr (o : Option String) : String := o.getD "None"

def digitsVal (cs : List Char) : Nat :=
  cs.foldl (fun a c => a * 10 + (c.toNat - 48)) 0

/-- Split a character list at every occurrence of `sep` (the field
separator of the `strptime` formats used by the program). -/
def splitOnCh (sep : Char) : List Char → List (List Char)
  | [] => [[]]
  | c :: rest =>
    if c = sep then [] :: splitOnCh sep rest
    else
      match splitOnCh sep rest with
      | h :: t => (c :: h) :: t
      | [] => [[c]]

/-! ### Calendar (the role of Python's `datetime.date`), days since 1970-01-01 -/

def isLeapYear (y : Nat) : Bool :=
  (y % 4 == 0 && y % 100 != 0) || y % 400 == 0

def daysInMonth (y m : Nat) : Nat :=
  if m = 2 then (if isLeapYear y then 29 else 28)
  else if m = 4 || m = 6 || m = 9 || m = 11 then 30
  else 31

/-- Civil date (year, month, day) from a 1970-01-01-based day number. -/
def civilFromDays (z : Nat) : Nat × Nat × Nat :=
  let zz := z + 719468
  let era := zz / 146097
  let doe := zz % 146097
  let yoe := (doe - doe / 1460 + doe / 36524 - doe / 146096) / 365
  let y := yoe + era * 400
  let doy := doe - (365 * yoe + yoe / 4 - yoe / 100)
  let mp := (5 * doy + 2) / 153
  let d := doy - (153 * mp + 2) / 5 + 1
  let m := if mp < 10 then mp + 3 else mp - 9
  (if m ≤ 2 then y + 1 else y, m, d)

/-- Day number from a civil date (valid for dates from 1970 on). -/
def daysFromCivil (y m d : Nat) : Nat :=
  let y1 := if m ≤ 2 then y - 1 else y
  let era := y1 / 400
  let yoe := y1 - era * 400
  let mp := if 2 < m then m - 3 else m + 9
  let doy := (153 * mp + 2) / 5 + d - 1
  let doe := yoe * 365 + yoe / 4 - yoe / 100 + doy
  era * 146097 + doe - 719468

def pad2 (n : Nat) : String := if n < 10 then "0" ++ toString n else toString n

def pad4 (n : Nat) : String :=
  if n < 10 then "000" ++ toString n
  else if n < 100 then "00" ++ toString n
  else if n < 1000 then "0" ++ toString n
  else toString n

/-- `strftime('%Y-%m-%d')` of a day number. -/
def formatDate (z : Nat) : String :=
  let c := civilFromDays z
  pad4 c.1 ++ "-" ++ pad2 c.2.1 ++ "-" ++ pad2 c.2.2

/-- Python's `date.weekday()`: Monday = 0 .. Sunday = 6 (1970-01-01 was a
Thursday, weekday 3). -/
def weekdayOf (z : Nat) : Nat := (z + 3) % 7

/-- `datetime.strptime(s, '%Y-%m-%d')` as a day number (accepts 1-2 digit
month/day fields like Python's lenient directives, checks calendar
validity). -/
def parseDateStr (s : String) : Option Nat :=
  match splitOnCh '-' s.toList with
  | [ys, ms, ds] =>
    if !ys.isEmpty && ys.length ≤ 4 && ys.all isDigitCh
        && !ms.isEmpty && ms.length ≤ 2 && ms.all isDigitCh
        && !ds.isEmpty && ds.length ≤ 2 && ds.all isDigitCh then
      let y := digitsVal ys
      let m := digitsVal ms
      let d := digitsVal ds
      if 1 ≤ m && m ≤ 12 && 1 ≤ d && d ≤ daysInMonth y m then
        some (daysFromCivil y m d)
      else none
    else none
  | _ => none

/-! ### The environment: external collaborators of the core -/

/-- Oracles for the parts of the program that live outside the repository:
`today` is `datetime.now().date()` as a day number, `dateparse` is
`dateparser.parse(msg, settings=PREFER_DATES_FROM future)` returning the
parsed calendar date, `validEmail` is `email_validator.validate_email`
succeeding, `nowIso` is `datetime.now().isoformat()`, and `storeOk` is
whether appending to `appointments.json` succeeds. -/
structure Env where
  today : Nat
  dateparse : String → Option Nat
  validEmail : String → Bool
  nowIso : String
  storeOk : Bool

/-! ### Validators (`conversational_form.py` lines 167-204) -/

def isNameChar (c : Char) : Bool :=
  isAsciiAlpha c || isPySpace c || c = '\'' || c = '-'

/-- `ConversationalForm.is_valid_name`: falsy or trimmed length < 2 fails,
then `re.match(r"^[A-Za-z\s'-]+$", name.strip())`. -/
def is_valid_name (name : String) : Bool :=
  if name == "" || (pyStrip name).length < 2 then false
  else (pyStrip name).toList.all isNameChar

/-- `form_handler.is_valid_name`: trimmed length in 2..50 and
`re.match(r"^[A-Za-z\s]+$", name.strip())` (letters and spaces only). -/
def fh_is_valid_name (name : String) : Bool :=
  if name == "" || (pyStrip name).length < 2 || 50 < (pyStrip name).length then false
  else (pyStrip name).toList.all (fun c => isAsciiAlpha c || isPySpace c)

/-- `re.sub(r'[^\d+]', '', phone)`. -/
def cleanPhone (s : String) : String :=
  String.mk (s.toList.filter (fun c => isDigitCh c || c = '+'))

/-- `ConversationalForm.is_valid_phone`: clean, then `^\+?\d{7,15}$`. -/
def is_valid_phone (phone : String) : Bool :=
  if phone == "" then false
  else
    let cs := (cleanPhone phone).toList
    let ds := if cs.head? == some '+' then cs.tail else cs
    ds.all isDigitCh && decide (7 ≤ ds.length) && decide (ds.length ≤ 15)

/-- `ConversationalForm.is_valid_email` delegates to `email_validator`. -/
def is_valid_email (e : Env) (email : String) : Bool := e.validEmail email

/-- `ConversationalForm.is_valid_date`: strict `%Y-%m-%d` parse, and the
date must be today or later. -/
def is_valid_date (e : Env) (s : String) : Bool :=
  match parseDateStr s with
  | some d => decide (e.today ≤ d)
  | none => false

/-- `ConversationalForm.is_valid_time`: `datetime.strptime(time_str, '%H:%M')`
succeeds (1-2 digit fields, hour 0-23, minute 0-59). -/
def is_valid_time (s : String) : Bool :=
  match splitOnCh ':' s.toList with
  | [hs, ms] =>
    !hs.isEmpty && hs.length ≤ 2 && hs.all isDigitCh
      && !ms.isEmpty && ms.length ≤ 2 && ms.all isDigitCh
      && decide (digitsVal hs ≤ 23) && decide (digitsVal ms ≤ 59)
  | _ => false

/-! ### Extraction (`extract_info_from_message`, lines 55-165): the regular
expressions of the source, translated as specialized leftmost-first
backtracking matchers -/

/-- Email pattern character classes of
`\b[A-Za-z0-9._%+-]+@[A-Za-z0-9.-]+\.[A-Z|a-z]{2,}\b`. -/
def isEmailLocalCh (c : Char) : Bool :=
  isAsciiAlpha c || isDigitCh c || c = '.' || c = '_' || c = '%' || c = '+' || c = '-'

def isEmailDomCh (c : Char) : Bool :=
  isAsciiAlpha c || isDigitCh c || c = '.' || c = '-'

def isEmailTldCh (c : Char) : Bool := isAsciiAlpha c || c = '|'

/-- A `\b` word boundary between two (possibly absent) adjacent characters. -/
def wordBoundary (a b : Option Char) : Bool :=
  (a.elim false isWordCh) != (b.elim false isWordCh)

/-- `[A-Z|a-z]{2,}\b`: try TLD lengths from `n` (the greedy maximum) down to
2, requiring a word boundary after the match. `r2a` starts right after the
dot. -/
def emailTldLoop (r2a : List Char) : Nat → Option (List Char)
  | 0 => none
  | n + 1 =>
    let tl := n + 1
    if tl < 2 then none
    else
      let t := r2a.take tl
      match t.getLast? with
      | none => none
      | some lastc =>
        if wordBoundary (some lastc) ((r2a.drop tl).head? ) then some t
        else emailTldLoop r2a n

/-- `[A-Za-z0-9.-]+\.[A-Z|a-z]{2,}\b`: try domain-part lengths from the
greedy maximum down to 1; the character after it must be the literal dot. -/
def emailDomLoop (rest2 : List Char) : Nat → Option (List Char)
  | 0 => none
  | n + 1 =>
    let mlen := n + 1
    let attempt : Option (List Char) :=
      if (rest2.drop mlen).head? == some '.' then
        let r2a := rest2.drop (mlen + 1)
        (emailTldLoop r2a (r2a.takeWhile isEmailTldCh).length).map
          (fun t => rest2.take mlen ++ '.' :: t)
      else none
    attempt.orElse (fun _ => emailDomLoop rest2 n)

/-- One match attempt of the email regex at the head of `cs` (the leading
`\b` is checked by the scanner). -/
def emailMatchAt (cs : List Char) : Option (List Char) :=
  let lp := cs.takeWhile isEmailLocalCh
  if lp.isEmpty then none
  else
    match cs.drop lp.length with
    | '@' :: rest2 =>
      (emailDomLoop rest2 (rest2.takeWhile isEmailDomCh).length).map
        (fun dom => lp ++ '@' :: dom)
    | _ => none

/-- Leftmost search of the email pattern (`re.findall(...)[0]`). -/
def emailScan (prev : Option Char) : List Char → Option (List Char)
  | [] => none
  | c :: rest =>
    (if wordBoundary prev (some c) then emailMatchAt (c :: rest) else none).orElse
      (fun _ => emailScan (some c) rest)

def extractEmail (msg : String) : Option String :=
  (emailScan none msg.toList).map String.mk

/-- Separator class `[-.\s]` of the phone pattern. -/
def isSepCh (c : Char) : Bool := c = '-' || c = '.' || isPySpace c

def takeExactDigits : Nat → List Char → Option (List Char × List Char)
  | 0, cs => some ([], cs)
  | _ + 1, [] => none
  | n + 1, c :: cs =>
    if isDigitCh c then (takeExactDigits n cs).map (fun p => (c :: p.1, p.2))
    else none

/-- A greedy optional literal character (`\(?`, `\)?`, `\+?`). -/
def optCh (ch : Char) (cs : List Char) : List Char × List Char :=
  match cs with
  | c :: rest => if c = ch then ([c], rest) else ([], cs)
  | [] => ([], [])

/-- A greedy optional separator (`[-.\s]?`). -/
def optSep (cs : List Char) : List Char × List Char :=
  match cs with
  | c :: rest => if isSepCh c then ([c], rest) else ([], cs)
  | [] => ([], [])

/-- Core of the phone pattern: `\(?\d{3}\)?[-.\s]?\d{3}[-.\s]?\d{4}` (each
optional piece is deterministic here, since what follows it can never match
the optional character). -/
def phoneCore (cs : List Char) : Option (List Char) := do
  let (p1, r1) := optCh '(' cs
  let (d1, r2) ← takeExactDigits 3 r1
  let (p2, r3) := optCh ')' r2
  let (s1, r4) := optSep r3
  let (d2, r5) ← takeExactDigits 3 r4
  let (s2, r6) := optSep r5
  let (d3, _) ← takeExactDigits 4 r6
  return p1 ++ d1 ++ p2 ++ s1 ++ d2 ++ s2 ++ d3

/-- The optional leading group `(?:\+?\d{1,3}[-.\s]?)?` with `\d{1,3}`
taking exactly `k` digits, then the core. -/
def phoneLead (k : Nat) (cs : List Char) : Option (List Char) := do
  let (pl, r0) := optCh '+' cs
  let (dk, r1) ← takeExactDigits k r0
  let (s, r2) := optSep r1
  let m ← phoneCore r2
  return pl ++ dk ++ s ++ m

/-- One match attempt of the phone pattern at the head of `cs`, in the
regex's greedy backtracking order: leading group present with 3, 2, then 1
digits, then absent. -/
def phoneMatchAt (cs : List Char) : Option (List Char) :=
  (phoneLead 3 cs).orElse fun _ =>
    (phoneLead 2 cs).orElse fun _ =>
      (phoneLead 1 cs).orElse fun _ => phoneCore cs

def phoneScan : List Char → Option (List Char)
  | [] => none
  | c :: rest => (phoneMatchAt (c :: rest)).orElse fun _ => phoneScan rest

/-- First phone match, cleaned (`re.sub(r'[^\d+]', '', phones[0])`). -/
def extractPhone (msg : String) : Option String :=
  (phoneScan msg.toList).map (fun m => cleanPhone (String.mk m))

/-- Character class `[a-zA-Z\s]` of the first name pattern. -/
def nameClassCh (c : Char) : Bool := isAsciiAlpha c || isPySpace c

/-- Case-insensitive literal match, returning the rest. -/
def litMatch (lit : List Char) (cs : List Char) : Option (List Char) :=
  if lit.length ≤ cs.length && (cs.take lit.length).map Char.toLower == lit then
    some (cs.drop lit.length)
  else none

/-- The alternation `(?:i'm|i am|my name is|call me)` (no two alternatives
can match at the same position, so first-match order is exact). -/
def nameP1Lits : List (List Char) :=
  ["i'm".toList, "i am".toList, "my name is".toList, "call me".toList]

def tryLits : List (List Char) → List Char → Option (List Char)
  | [], _ => none
  | l :: ls, cs => (litMatch l cs).orElse fun _ => tryLits ls cs

/-- After the literal: `\s+([a-zA-Z\s]+)`, group 1 returned.  Greedy `\s+`
takes all whitespace; if nothing of the class follows, it backtracks one
character so the group captures the final whitespace character (as Python
does), which needs at least two whitespace characters. -/
def nameP1Group (rest : List Char) : Option (List Char) :=
  let ws := rest.takeWhile isPySpace
  if ws.isEmpty then none
  else
    let tail := (rest.drop ws.length).takeWhile nameClassCh
    if tail.isEmpty then
      if 2 ≤ ws.length then (ws.getLast?).map (fun c => [c]) else none
    else some tail

def nameP1At (cs : List Char) : Option (List Char) :=
  match tryLits nameP1Lits cs with
  | some rest => nameP1Group rest
  | none => none

def nameP1Scan : List Char → Option (List Char)
  | [] => none
  | c :: rest => (nameP1At (c :: rest)).orElse fun _ => nameP1Scan rest

/-- The `(?:\s+[A-Z][a-z]+)*` tail of the second name pattern (with
`re.IGNORECASE`, each word is just two-or-more letters). -/
def nameP2Loop : Nat → List Char → List Char → List Char
  | 0, acc, _ => acc
  | fuel + 1, acc, cs =>
    let ws := cs.takeWhile isPySpace
    if ws.isEmpty then acc
    else
      let w := (cs.drop ws.length).takeWhile isAsciiAlpha
      if w.length < 2 then acc
      else nameP2Loop fuel (acc ++ ws ++ w) (cs.drop (ws.length + w.length))

/-- `^([A-Z][a-z]+(?:\s+[A-Z][a-z]+)*)` with `re.IGNORECASE`, anchored at
the start of the message. -/
def nameP2At (cs : List Char) : Option (List Char) :=
  let w1 := cs.takeWhile isAsciiAlpha
  if w1.length < 2 then none
  else some (nameP2Loop cs.length w1 (cs.drop w1.length))

/-- Name extraction (lines 73-84): the patterns are tried in order and the
loop breaks on the first pattern that matches, whether or not the captured
candidate passes `is_valid_name`. -/
def extractName (msg : String) : Option String :=
  let cs := msg.toList
  match nameP1Scan cs with
  | some g =>
    let cand := pyStrip (String.mk g)
    if is_valid_name cand then some cand else none
  | none =>
    match nameP2At cs with
    | some g =>
      let cand := pyStrip (String.mk g)
      if is_valid_name cand then some cand else none
    | none => none

/-- `(\d{1,2}):` — greedy hour then the literal colon (two digits first;
when two digits succeed the one-digit alternative is impossible, so the
choice is deterministic). -/
def timeHourColon (cs : List Char) : Option (List Char × List Char) :=
  (do
    let (h, r) ← takeExactDigits 2 cs
    match r with
    | ':' :: r2 => some (h, r2)
    | _ => none).orElse fun _ =>
  (do
    let (h, r) ← takeExactDigits 1 cs
    match r with
    | ':' :: r2 => some (h, r2)
    | _ => none)

/-- The alternation `(am|pm)` on the lowercased message. -/
def ampmTake (cs : List Char) : Option (String × List Char) :=
  match cs with
  | 'a' :: 'm' :: r => some ("am", r)
  | 'p' :: 'm' :: r => some ("pm", r)
  | _ => none

/-- `(\d{1,2}):(\d{2})\s*(am|pm)` at the head of `cs`:
(hour value, minute digits, period). -/
def timeP1At (cs : List Char) : Option (Nat × List Char × String) := do
  let (h, r1) ← timeHourColon cs
  let (m, r2) ← takeExactDigits 2 r1
  let r3 := r2.dropWhile isPySpace
  let (p, _) ← ampmTake r3
  return (digitsVal h, m, p)

def timeP1Scan : List Char → Option (Nat × List Char × String)
  | [] => none
  | c :: rest => (timeP1At (c :: rest)).orElse fun _ => timeP1Scan rest

/-- `(\d{1,2})\s*(am|pm)` at the head of `cs`. -/
def timeP2At (cs : List Char) : Option (Nat × String) :=
  (do
    let (h, r) ← takeExactDigits 2 cs
    let r2 := r.dropWhile isPySpace
    let (p, _) ← ampmTake r2
    return (digitsVal h, p)).orElse fun _ =>
  (do
    let (h, r) ← takeExactDigits 1 cs
    let r2 := r.dropWhile isPySpace
    let (p, _) ← ampmTake r2
    return (digitsVal h, p))

def timeP2Scan : List Char → Option (Nat × String)
  | [] => none
  | c :: rest => (timeP2At (c :: rest)).orElse fun _ => timeP2Scan rest

/-- `(\d{1,2}):(\d{2})` (24-hour) at the head of `cs`. -/
def timeP3At (cs : List Char) : Option (Nat × List Char) := do
  let (h, r1) ← timeHourColon cs
  let (m, _) ← takeExactDigits 2 r1
  return (digitsVal h, m)

def timeP3Scan : List Char → Option (Nat × List Char)
  | [] => none
  | c :: rest => (timeP3At (c :: rest)).orElse fun _ => timeP3Scan rest

/-- The 12-hour conversion of lines 139-142 and 147-150: pm and hour not 12
adds 12; am and hour 12 becomes 0. -/
def conv12 (hour : Nat) (period : String) : Nat :=
  if period == "pm" && hour != 12 then hour + 12
  else if period == "am" && hour == 12 then 0
  else hour

/-- The time-pattern loop of `parse_date_from_message` (lines 126-155):
the three patterns are searched over the whole lowercased message in
order, first matching pattern wins. -/
def extractTimeLower (lcs : List Char) : Option String :=
  match timeP1Scan lcs with
  | some (h, m, p) => some (pad2 (conv12 h p) ++ ":" ++ String.mk m)
  | none =>
    match timeP2Scan lcs with
    | some (h, p) => some (pad2 (conv12 h p) ++ ":00")
    | none =>
      match timeP3Scan lcs with
      | some (h, m) => some (pad2 h ++ ":" ++ String.mk m)
      | none => none

/-- The fallback time patterns inside `_handle_time_collection`
(lines 324-348): only the two am/pm patterns, no 24-hour pattern. -/
def fallbackTimeLower (lcs : List Char) : Option String :=
  match timeP1Scan lcs with
  | some (h, m, p) => some (pad2 (conv12 h p) ++ ":" ++ String.mk m)
  | none =>
    match timeP2Scan lcs with
    | some (h, p) => some (pad2 (conv12 h p) ++ ":00")
    | none => none

/-- `_days_until_weekday` (lines 159-165): days ahead from the current
weekday to the target weekday, rolling a non-positive difference forward
by 7. -/
def daysUntilWeekday (todayWd target : Nat) : Int :=
  let d : Int := (target : Int) - (todayWd : Int)
  if d ≤ 0 then d + 7 else d

/-- The `relative_dates` table (lines 98-109), in its insertion order. -/
def relativeTable (e : Env) : List (String × Int) :=
  let wd := weekdayOf e.today
  [("today", 0), ("tomorrow", 1), ("day after tomorrow", 2),
   ("next monday", daysUntilWeekday wd 0), ("next tuesday", daysUntilWeekday wd 1),
   ("next wednesday", daysUntilWeekday wd 2), ("next thursday", daysUntilWeekday wd 3),
   ("next friday", daysUntilWeekday wd 4), ("next saturday", daysUntilWeekday wd 5),
   ("next sunday", daysUntilWeekday wd 6)]

/-- The relative-date scan (lines 113-118): first table phrase contained in
the lowercased message wins. -/
def findRelative (e : Env) (lmsg : String) : Option Int :=
  ((relativeTable e).find? (fun pr => containsSub lmsg pr.1)).map Prod.snd

def addDays (base : Nat) (d : Int) : Nat := ((base : Int) + d).toNat

/-- `parse_date_from_message` (lines 93-157): (date, time).  The dateparser
library runs only when the relative-date table found nothing, and its
result is kept only when it is today or later. -/
def parse_date_from_message (e : Env) (msg : String) : Option String × Option String :=
  let lmsg := pyLower msg
  let dateOpt : Option String :=
    match findRelative e lmsg with
    | some d => some (formatDate (addDays e.today d))
    | none =>
      match e.dateparse msg with
      | some d => if e.today ≤ d then some (formatDate d) else none
      | none => none
  (dateOpt, extractTimeLower lmsg.toList)

/-! ### The extracted-candidates record and the data model -/

/-- The dictionary built by `extract_info_from_message` (the `reason` field
is never extracted). -/
structure Extracted where
  email : Option String := none
  phone : Option String := none
  name : Option String := none
  appointment_date : Option String := none
  appointment_time : Option String := none
deriving Repr, DecidableEq

/-- `extract_info_from_message` (lines 55-91). -/
def extract_info_from_message (e : Env) (msg : String) : Extracted :=
  let dt := parse_date_from_message e msg
  { email := extractEmail msg
    phone := extractPhone msg
    name := extractName msg
    appointment_date := dt.1
    appointment_time := dt.2 }

/-- The `UserInfo` dataclass (lines 21-28). -/
structure UserInfo where
  name : Option String := none
  phone : Option String := none
  email : Option String := none
  appointment_date : Option String := none
  appointment_time : Option String := none
  reason : Option String := none
deriving Repr, DecidableEq

/-- The extraction-merge step of `process_message` (lines 213-216): each
extracted value populates its `UserInfo` field only when that field is
`None`. -/
def mergeInfo (u : UserInfo) (ex : Extracted) : UserInfo :=
  { u with
    name := match u.name with | none => ex.name | some v => some v
    phone := match u.phone with | none => ex.phone | some v => some v
    email := match u.email with | none => ex.email | some v => some v
    appointment_date :=
      match u.appointment_date with | none => ex.appointment_date | some v => some v
    appointment_time :=
      match u.appointment_time with | none => ex.appointment_time | some v => some v }

/-- The `FormState` enum (lines 10-19). -/
inductive FormState where
  | idle
  | collecting_name
  | collecting_phone
  | collecting_email
  | collecting_date
  | collecting_time
  | collecting_reason
  | confirming
  | completed
deriving Repr, DecidableEq

def FormState.value : FormState → String
  | .idle => "idle"
  | .collecting_name => "collecting_name"
  | .collecting_phone => "collecting_phone"
  | .collecting_email => "collecting_email"
  | .collecting_date => "collecting_date"
  | .collecting_time => "collecting_time"
  | .collecting_reason => "collecting_reason"
  | .confirming => "confirming"
  | .completed => "completed"

/-- The mutable state of one `ConversationalForm` instance (lines 30-36). -/
structure Session where
  state : FormState := .idle
  user_info : UserInfo := {}
  conversation_history : List String := []
  retry_count : Nat := 0
  max_retries : Nat := 3
deriving Repr, DecidableEq

/-- The appointment dictionary persisted by `_handle_confirmation`
(lines 376-382): `asdict(user_info)` plus `created_at` and `status`. -/
structure Record where
  name : Option String
  phone : Option String
  email : Option String
  appointment_date : Option String
  appointment_time : Option String
  reason : Option String
  created_at : String
  status : String
deriving Repr, DecidableEq

/-- The dictionary returned by `process_message`. -/
structure Result where
  response : String
  state : String
  action : Option String := none
  appointment_data : Option Record := none
deriving Repr, DecidableEq

/-- `is_requesting_callback` (lines 45-53). -/
def is_requesting_callback (msg : String) : Bool :=
  let l := pyLower msg
  ["call me", "call back", "callback", "phone me", "ring me",
   "book appointment", "schedule appointment", "make appointment",
   "meet", "consultation", "discuss", "talk to someone"].any
    (fun k => containsSub l k)

/-! ### The state machine (`process_message` and its handlers) -/

def weekdayLongName : Nat → String
  | 0 => "Monday"
  | 1 => "Tuesday"
  | 2 => "Wednesday"
  | 3 => "Thursday"
  | 4 => "Friday"
  | 5 => "Saturday"
  | _ => "Sunday"

def monthLongName : Nat → String
  | 1 => "January"
  | 2 => "February"
  | 3 => "March"
  | 4 => "April"
  | 5 => "May"
  | 6 => "June"
  | 7 => "July"
  | 8 => "August"
  | 9 => "September"
  | 10 => "October"
  | 11 => "November"
  | _ => "December"

/-- `strftime('%A, %B %d, %Y')` of a day number. -/
def formatLongDate (z : Nat) : String :=
  let c := civilFromDays z
  weekdayLongName (weekdayOf z) ++ ", " ++ monthLongName c.2.1 ++ " "
    ++ pad2 c.2.2 ++ ", " ++ pad4 c.1

/-- `strftime('%I:%M %p')` of an `HH:MM` string. -/
def format12Hour (t : String) : String :=
  match splitOnCh ':' t.toList with
  | [hs, ms] =>
    let h := digitsVal hs
    let h12 := if h % 12 == 0 then 12 else h % 12
    pad2 h12 ++ ":" ++ String.mk ms ++ (if h < 12 then " AM" else " PM")
  | _ => t

/-- `_get_next_question` (lines 397-408). -/
def get_next_question (s : Session) : Result :=
  let q : String :=
    match s.state with
    | .collecting_name =>
      "I'd be happy to arrange a callback for you! Could you please tell me your full name?"
    | .collecting_phone =>
      "Thank you, " ++ optStr s.user_info.name ++ "! What's the best phone number to reach you?"
    | .collecting_email => "Great! Could you also provide your email address?"
    | .collecting_date =>
      "When would you like us to call you? You can say things like 'tomorrow', 'next Monday', or a specific date:"
    | .collecting_time => "What time would be convenient for you?"
    | .collecting_reason =>
      "Finally, could you briefly tell me what you'd like to discuss during the call?"
    | _ => ""
  { response := q, state := s.state.value }

/-- `_get_confirmation_message` (lines 410-428).  In Python an unparsable
stored date would raise in `strptime`; every state that reaches this point
holds a validated date, so the model totalizes with an empty rendering. -/
def get_confirmation_message (s : Session) : Result :=
  let dStr : String :=
    match s.user_info.appointment_date.bind parseDateStr with
    | some z => formatLongDate z
    | none => ""
  let tStr := format12Hour (optStr s.user_info.appointment_time)
  { response :=
      "Let me confirm your appointment details: Name: " ++ optStr s.user_info.name
        ++ " Phone: " ++ optStr s.user_info.phone
        ++ " Email: " ++ optStr s.user_info.email
        ++ " Date: " ++ dStr ++ " Time: " ++ tStr
        ++ " Discussion Topic: " ++ optStr s.user_info.reason
        ++ " Is this information correct?"
    state := s.state.value }

/-- `_handle_name_collection` (lines 249-269).  `s` is the session after
the extraction merge. -/
def handle_name_collection (s : Session) (msg : String) (ex : Extracted) :
    Session × Result :=
  if optTruthy s.user_info.name && is_valid_name (s.user_info.name.getD "") then
    let s' := { s with state := .collecting_phone, retry_count := 0 }
    (s', get_next_question s')
  else if !optTruthy ex.name && is_valid_name (pyStrip msg) then
    let s' := { s with
      user_info := { s.user_info with name := some (pyStrip msg) }
      state := .collecting_phone, retry_count := 0 }
    (s', get_next_question s')
  else
    let s' := { s with retry_count := s.retry_count + 1 }
    if s.max_retries ≤ s'.retry_count then
      (s', { response := "I'm having trouble getting your name. Let's try again from the beginning."
             state := "error", action := some "reset" })
    else
      (s', { response := "Could you please tell me your full name?", state := s.state.value })

/-- `_handle_phone_collection` (lines 271-285). -/
def handle_phone_collection (s : Session) (msg : String) (ex : Extracted) :
    Session × Result :=
  let phone := pyOr ex.phone (pyStrip msg)
  if is_valid_phone phone then
    let s' := { s with
      user_info := { s.user_info with phone := some phone }
      state := .collecting_email, retry_count := 0 }
    (s', get_next_question s')
  else
    let s' := { s with retry_count := s.retry_count + 1 }
    if s.max_retries ≤ s'.retry_count then
      (s', { response := "I'm having trouble getting your phone number. Let's try again from the beginning."
             state := "error", action := some "reset" })
    else
      (s', { response := "Please provide a valid phone number (e.g., +1234567890 or 123-456-7890):"
             state := s.state.value })

/-- `_handle_email_collection` (lines 287-301). -/
def handle_email_collection (e : Env) (s : Session) (msg : String) (ex : Extracted) :
    Session × Result :=
  let email := pyOr ex.email (pyStrip msg)
  if is_valid_email e email then
    let s' := { s with
      user_info := { s.user_info with email := some email }
      state := .collecting_date, retry_count := 0 }
    (s', get_next_question s')
  else
    let s' := { s with retry_count := s.retry_count + 1 }
    if s.max_retries ≤ s'.retry_count then
      (s', { response := "I'm having trouble getting your email. Let's try again from the beginning."
             state := "error", action := some "reset" })
    else
      (s', { response := "Please provide a valid email address (e.g., your.email@example.com):"
             state := s.state.value })

/-- `_handle_date_collection` (lines 303-316): only the current message's
extraction is considered (a date stored on a previous turn is ignored). -/
def handle_date_collection (e : Env) (s : Session) (ex : Extracted) :
    Session × Result :=
  if optTruthy ex.appointment_date
      && is_valid_date e (ex.appointment_date.getD "") then
    let s' := { s with
      user_info := { s.user_info with appointment_date := ex.appointment_date }
      state := .collecting_time, retry_count := 0 }
    (s', get_next_question s')
  else
    let s' := { s with retry_count := s.retry_count + 1 }
    if s.max_retries ≤ s'.retry_count then
      (s', { response := "I'm having trouble understanding the date. Let's try again from the beginning."
             state := "error", action := some "reset" })
    else
      (s', { response := "When would you like to schedule the appointment? You can say things like 'tomorrow', 'next Monday', or a specific date:"
             state := s.state.value })

/-- `_handle_time_collection` (lines 318-360): the current extraction's
time, else the in-handler fallback patterns on the lowercased message. -/
def handle_time_collection (s : Session) (msg : String) (ex : Extracted) :
    Session × Result :=
  let time_str : Option String :=
    if optTruthy ex.appointment_time then ex.appointment_time
    else fallbackTimeLower (pyLower msg).toList
  if optTruthy time_str && is_valid_time (time_str.getD "") then
    let s' := { s with
      user_info := { s.user_info with appointment_time := time_str }
      state := .collecting_reason, retry_count := 0 }
    (s', get_next_question s')
  else
    let s' := { s with retry_count := s.retry_count + 1 }
    if s.max_retries ≤ s'.retry_count then
      (s', { response := "I'm having trouble understanding the time. Let's try again from the beginning."
             state := "error", action := some "reset" })
    else
      (s', { response := "What time would you prefer? Please specify in format like '2:30 PM' or '14:30':"
             state := s.state.value })

/-- `_handle_reason_collection` (lines 362-370): any non-empty trimmed
message is accepted; an empty one re-asks without touching `retry_count`. -/
def handle_reason_collection (s : Session) (msg : String) : Session × Result :=
  if pyStrip msg != "" then
    let s' := { s with
      user_info := { s.user_info with reason := some (pyStrip msg) }
      state := .confirming, retry_count := 0 }
    (s', get_confirmation_message s')
  else
    (s, { response := "Could you please tell me briefly what you'd like to discuss during the call?"
          state := s.state.value })

def affirmativeTokens : List String := ["yes", "y", "confirm", "correct", "ok", "okay"]

def negativeTokens : List String := ["no", "n", "incorrect", "wrong"]

/-- The appointment dictionary built on an affirmative confirmation. -/
def mkRecord (e : Env) (u : UserInfo) : Record :=
  { name := u.name, phone := u.phone, email := u.email
    appointment_date := u.appointment_date, appointment_time := u.appointment_time
    reason := u.reason, created_at := e.nowIso, status := "confirmed" }

/-- `_handle_confirmation` (lines 372-395) together with
`_save_appointment` (lines 430-436): the append to the store happens only
when the file is writable, the raised exception is caught and printed, and
the state advances to COMPLETED either way.  A negative reply returns a
result whose state string is "editing" without touching the session. -/
def handle_confirmation (e : Env) (s : Session) (store : List Record) (msg : String) :
    Session × List Record × Result :=
  let ml := pyStrip (pyLower msg)
  if affirmativeTokens.contains ml then
    let r := mkRecord e s.user_info
    let store' := if e.storeOk then store ++ [r] else store
    let s' := { s with state := .completed }
    (s', store',
      { response :=
          "Perfect! Your appointment has been scheduled for "
            ++ optStr s.user_info.appointment_date ++ " at "
            ++ optStr s.user_info.appointment_time ++ ". We'll call you at "
            ++ optStr s.user_info.phone
            ++ ". You should also receive a confirmation email at "
            ++ optStr s.user_info.email ++ "."
        state := "completed", appointment_data := some r })
  else if negativeTokens.contains ml then
    (s, store,
      { response := "What would you like to change? Please let me know which information needs to be updated."
        state := "editing" })
  else
    (s, store,
      { response := "Please confirm if the information is correct by saying 'yes' or 'no':"
        state := s.state.value })

/-- `process_message` (lines 206-247): history append, extraction merge,
then dispatch on the current state. -/
def process_message (e : Env) (s : Session) (store : List Record) (msg : String) :
    Session × List Record × Result :=
  let ex := extract_info_from_message e msg
  let s1 := { s with
    conversation_history := s.conversation_history ++ [msg]
    user_info := mergeInfo s.user_info ex }
  match s1.state with
  | .idle =>
    if is_requesting_callback msg then
      let s' := { s1 with state := .collecting_name }
      (s', store, get_next_question s')
    else
      (s1, store,
        { response := "I understand you have a question. Would you like me to call you back to discuss this further?"
          state := "idle" })
  | .collecting_name =>
    let (s', r) := handle_name_collection s1 msg ex
    (s', store, r)
  | .collecting_phone =>
    let (s', r) := handle_phone_collection s1 msg ex
    (s', store, r)
  | .collecting_email =>
    let (s', r) := handle_email_collection e s1 msg ex
    (s', store, r)
  | .collecting_date =>
    let (s', r) := handle_date_collection e s1 ex
    (s', store, r)
  | .collecting_time =>
    let (s', r) := handle_time_collection s1 msg ex
    (s', store, r)
  | .collecting_reason =>
    let (s', r) := handle_reason_collection s1 msg
    (s', store, r)
  | .confirming => handle_confirmation e s1 store msg
  | .completed =>
    (s1, store,
      { response := "I'm not sure how to help with that. Could you please clarify?"
        state := s1.state.value })

def freshSession : Session := {}

/-- Feeding a list of messages, one `process_message` call each, to a
session and the store. -/
def runMessages (e : Env) : Session × List Record → List String → Session × List Record
  | p, [] => p
  | (s, store), m :: ms =>
    let t := process_message e s store m
    runMessages e (t.1, t.2.1) ms

/-- `ConversationalForm.reset` (lines 38-43): `max_retries` is not touched. -/
def resetSession (s : Session) : Session :=
  { state := .idle, user_info := {}, conversation_history := []
    retry_count := 0, max_retries := s.max_retries }

/-- `AppointmentTool._run` (`tool_agents.py` lines 20-28): the caller that
acts on the engine's `action: "reset"` outcome by resetting the form. -/
def appointment_tool_run (e : Env) (s : Session) (store : List Record) (msg : String) :
    Session × List Record × String :=
  let t := process_message e s store msg
  if t.2.2.action == some "reset" then
    (resetSession t.1, t.2.1, "Let's start over. " ++ t.2.2.response)
  else
    (t.1, t.2.1, t.2.2.response)

/-! ### Derived predicates used by the verification -/

/-- All six collected fields of a persisted record are non-null. -/
def recordComplete (r : Record) : Bool :=
  r.name.isSome && r.phone.isSome && r.email.isSome
    && r.appointment_date.isSome && r.appointment_time.isSome && r.reason.isSome

/-- All six `UserInfo` fields are non-null. -/
def allSet (u : UserInfo) : Bool :=
  u.name.isSome && u.phone.isSome && u.email.isSome
    && u.appointment_date.isSome && u.appointment_time.isSome && u.reason.isSome

/-- The per-state field invariant of the state machine: every state knows
the fields collected by the states before it. -/
def invHolds (s : Session) : Bool :=
  match s.state with
  | .idle => true
  | .collecting_name => true
  | .collecting_phone => s.user_info.name.isSome
  | .collecting_email => s.user_info.name.isSome && s.user_info.phone.isSome
  | .collecting_date =>
    s.user_info.name.isSome && s.user_info.phone.isSome && s.user_info.email.isSome
  | .collecting_time =>
    s.user_info.name.isSome && s.user_info.phone.isSome && s.user_info.email.isSome
      && s.user_info.appointment_date.isSome
  | .collecting_reason =>
    s.user_info.name.isSome && s.user_info.phone.isSome && s.user_info.email.isSome
      && s.user_info.appointment_date.isSome && s.user_info.appointment_time.isSome
  | .confirming => allSet s.user_info
  | .completed => allSet s.user_info

/-- The fall-through ("invalid value") condition of the five field-collecting
handlers that bound retries: the handler neither finds an acceptable value in
the current message's extraction nor (where it falls back to it) in the raw
message, so it increments `retry_count`.  `uname` is the session's name field
before the merge (only the name handler reads prior state). -/
def rejectsAt (e : Env) (st : FormState) (uname : Option String) (msg : String) : Bool :=
  let ex := extract_info_from_message e msg
  match st with
  | .collecting_name =>
    ex.name == none && !(optTruthy uname && is_valid_name (uname.getD ""))
      && !is_valid_name (pyStrip msg)
  | .collecting_phone => !is_valid_phone (pyOr ex.phone (pyStrip msg))
  | .collecting_email => !is_valid_email e (pyOr ex.email (pyStrip msg))
  | .collecting_date =>
    !(optTruthy ex.appointment_date && is_valid_date e (ex.appointment_date.getD ""))
  | .collecting_time =>
    let ts : Option String :=
      if optTruthy ex.appointment_time then ex.appointment_time
      else fallbackTimeLower (pyLower msg).toList
    !(optTruthy ts && is_valid_time (ts.getD ""))
  | _ => false

/-- The five states whose handlers bound retries. -/
def retryBoundedStates : List FormState :=
  [.collecting_name, .collecting_phone, .collecting_email, .collecting_date, .collecting_time]

/-- The name-validity condition exactly as the claim states it (trimmed
length between 2 and 50 inclusive, characters restricted to letters,
spaces, apostrophes and hyphens), written from the spec's words for
comparison against the source's validators. -/
def specValidName (s : String) : Bool :=
  2 ≤ (pyStrip s).length && (pyStrip s).length ≤ 50
    && (pyStrip s).toList.all (fun c => isAsciiAlpha c || c = ' ' || c = '\'' || c = '-')

/-! ### Concrete inputs used by witnesses and counterexamples -/

/-- A concrete environment: 2024-06-10 (a Monday) as the current date, a
dateparser oracle that parses nothing, an email oracle accepting the one
address used, and a writable store. -/
def envW : Env :=
  { today := 19884
    dateparse := fun _ => none
    validEmail := fun s => s == "jane@example.com"
    nowIso := "2024-06-10T12:00:00"
    storeOk := true }

/-- The same environment with the appointments file unwritable. -/
def envF : Env := { envW with storeOk := false }

/-- A happy-path conversation whose intent message yields no extracted
name. -/
def happyMsgs : List String :=
  ["I want to book appointment", "Jane Doe", "1234567890", "jane@example.com",
   "tomorrow", "2:30 pm", "discuss pricing", "yes"]

/-- The same conversation opened with "call me back", from which name
extraction captures "back" before the name turn. -/
def ceMsgs : List String :=
  ["call me back", "Jane Doe", "1234567890", "jane@example.com",
   "tomorrow", "2:30 pm", "discuss pricing", "yes"]

/-- A reachable prefix that pre-fills the phone from the intent turn, then a
message with nothing extractable at the phone state. -/
def c4Msgs : List String := ["call me back at 123-456-7890", "ok", "hello"]

/-- A reachable session sitting at COLLECTING_REASON with the five prior
fields collected. -/
def sessionReason : Session :=
  { state := .collecting_reason
    user_info :=
      { name := some "Jane Doe", phone := some "1234567890"
        email := some "jane@example.com", appointment_date := some "2024-06-11"
        appointment_time := some "14:30" }
    conversation_history := []
    retry_count := 0
    max_retries := 3 }

/-- A reachable session sitting at CONFIRMING with all six fields
collected. -/
def sessionConfirm : Session :=
  { sessionReason with
    state := .confirming
    user_info := { sessionReason.user_info with reason := some "discuss pricing" } }

/-- A fully collected `UserInfo` and a differing extraction, for the merge
idempotence witness. -/
def uAllW : UserInfo :=
  { name := some "Jane Doe", phone := some "1234567890"
    email := some "jane@example.com", appointment_date := some "2024-06-11"
    appointment_time := some "14:30", reason := some "discuss pricing" }

def exOtherW : Extracted :=
  { email := some "other@example.com", phone := some "0987654321"
    name := some "Other Name", appointment_date := some "2024-07-01"
    appointment_time := some "09:00" }

/-- The time value `_handle_time_collection` works with: the current
extraction's time when truthy, else the in-handler fallback patterns. -/
def collected_time (e : Env) (m : String) : Option String :=
  if optTruthy (extract_info_from_message e m).appointment_time then
    (extract_info_from_message e m).appointment_time
  else fallbackTimeLower (pyLower m).toList

/-! ### Helper lemmas about the merge and the validators -/

theorem extract_name_proj (e : Env) (m : String) :
    (extract_info_from_message e m).name = extractName m := rfl

theorem run_cons (e : Env) (s : Session) (store : List Record) (m : String)
    (ms : List String) :
    runMessages e (s, store) (m :: ms)
      = runMessages e ((process_message e s store m).1, (process_message e s store m).2.1) ms :=
  rfl

theorem runMessages_append (e : Env) (p : Session × List Record) (ms1 ms2 : List String) :
    runMessages e p (ms1 ++ ms2) = runMessages e (runMessages e p ms1) ms2 := by
  induction ms1 generalizing p with
  | nil => rfl
  | cons m ms ih =>
    obtain ⟨s, store⟩ := p
    simp only [List.cons_append, runMessages]
    exact ih _

theorem mergeInfo_reason (u : UserInfo) (ex : Extracted) :
    (mergeInfo u ex).reason = u.reason := rfl

theorem mergeInfo_name_some (u : UserInfo) (ex : Extracted) (v : String)
    (h : u.name = some v) : (mergeInfo u ex).name = some v := by
  simp [mergeInfo, h]

theorem mergeInfo_phone_some (u : UserInfo) (ex : Extracted) (v : String)
    (h : u.phone = some v) : (mergeInfo u ex).phone = some v := by
  simp [mergeInfo, h]

theorem mergeInfo_email_some (u : UserInfo) (ex : Extracted) (v : String)
    (h : u.email = some v) : (mergeInfo u ex).email = some v := by
  simp [mergeInfo, h]

theorem mergeInfo_date_some (u : UserInfo) (ex : Extracted) (v : String)
    (h : u.appointment_date = some v) : (mergeInfo u ex).appointment_date = some v := by
  simp [mergeInfo, h]

theorem mergeInfo_time_some (u : UserInfo) (ex : Extracted) (v : String)
    (h : u.appointment_time = some v) : (mergeInfo u ex).appointment_time = some v := by
  simp [mergeInfo, h]

theorem mergeInfo_name_of_exnone (u : UserInfo) (ex : Extracted)
    (h : ex.name = none) : (mergeInfo u ex).name = u.name := by
  cases hu : u.name <;> simp [mergeInfo, h, hu]

theorem mergeInfo_name_isSome (u : UserInfo) (ex : Extracted) :
    (mergeInfo u ex).name.isSome = (u.name.isSome || ex.name.isSome) := by
  cases hu : u.name <;> simp [mergeInfo, hu]

theorem mergeInfo_phone_isSome (u : UserInfo) (ex : Extracted) :
    (mergeInfo u ex).phone.isSome = (u.phone.isSome || ex.phone.isSome) := by
  cases hu : u.phone <;> simp [mergeInfo, hu]

theorem mergeInfo_email_isSome (u : UserInfo) (ex : Extracted) :
    (mergeInfo u ex).email.isSome = (u.email.isSome || ex.email.isSome) := by
  cases hu : u.email <;> simp [mergeInfo, hu]

theorem mergeInfo_date_isSome (u : UserInfo) (ex : Extracted) :
    (mergeInfo u ex).appointment_date.isSome
      = (u.appointment_date.isSome || ex.appointment_date.isSome) := by
  cases hu : u.appointment_date <;> simp [mergeInfo, hu]

theorem mergeInfo_time_isSome (u : UserInfo) (ex : Extracted) :
    (mergeInfo u ex).appointment_time.isSome
      = (u.appointment_time.isSome || ex.appointment_time.isSome) := by
  cases hu : u.appointment_time <;> simp [mergeInfo, hu]

theorem optTruthy_isSome (o : Option String) (h : optTruthy o = true) :
    o.isSome = true := by
  cases o <;> simp_all [optTruthy]

theorem is_valid_name_ne_empty (n : String) (h : is_valid_name n = true) :
    (n != "") = true := by
  rcases eq_or_ne n "" with rfl | hne
  · simp [is_valid_name] at h
  · simp [hne]

theorem extractName_valid (m n : String) (h : extractName m = some n) :
    is_valid_name n = true := by
  simp only [extractName] at h
  split at h
  · split_ifs at h with hv
    exact (Option.some.injEq _ _).mp h ▸ hv
  · split at h
    · split_ifs at h with hv
      exact (Option.some.injEq _ _).mp h ▸ hv
    · cases h

/-! ### Step lemmas: one `process_message` call in each acceptance branch -/

theorem idle_intent_step (e : Env) (s : Session) (store : List Record) (m : String)
    (hst : s.state = .idle) (h : is_requesting_callback m = true) :
    process_message e s store m =
      (let s' : Session :=
        { s with
          conversation_history := s.conversation_history ++ [m]
          user_info := mergeInfo s.user_info (extract_info_from_message e m)
          state := .collecting_name }
       (s', store, get_next_question s')) := by
  simp only [process_message, hst, h, if_true]

theorem accept_name_merged_step (e : Env) (s : Session) (store : List Record) (m : String)
    (hst : s.state = .collecting_name)
    (h : (optTruthy (mergeInfo s.user_info (extract_info_from_message e m)).name
        && is_valid_name
            ((mergeInfo s.user_info (extract_info_from_message e m)).name.getD "")) = true) :
    process_message e s store m =
      (let s' : Session :=
        { s with
          conversation_history := s.conversation_history ++ [m]
          user_info := mergeInfo s.user_info (extract_info_from_message e m)
          state := .collecting_phone
          retry_count := 0 }
       (s', store, get_next_question s')) := by
  simp only [process_message, hst, handle_name_collection]
  simp only [Bool.and_eq_true] at h
  simp only [h.1, h.2, Bool.and_self, if_true]

theorem accept_name_raw_step (e : Env) (s : Session) (store : List Record) (m : String)
    (hst : s.state = .collecting_name)
    (hun : s.user_info.name = none)
    (hexn : (extract_info_from_message e m).name = none)
    (hval : is_valid_name (pyStrip m) = true) :
    process_message e s store m =
      (let s' : Session :=
        { s with
          conversation_history := s.conversation_history ++ [m]
          user_info :=
            { mergeInfo s.user_info (extract_info_from_message e m) with
              name := some (pyStrip m) }
          state := .collecting_phone
          retry_count := 0 }
       (s', store, get_next_question s')) := by
  have hm : (mergeInfo s.user_info (extract_info_from_message e m)).name = none := by
    rw [mergeInfo_name_of_exnone _ _ hexn, hun]
  simp only [process_message, hst, handle_name_collection, hm, hexn, hval, optTruthy,
    Bool.false_and, Bool.not_false, Bool.true_and, if_true, if_false, Bool.false_eq_true]

theorem accept_phone_step (e : Env) (s : Session) (store : List Record) (m : String)
    (hst : s.state = .collecting_phone)
    (hval : is_valid_phone (pyOr (extract_info_from_message e m).phone (pyStrip m)) = true) :
    process_message e s store m =
      (let s' : Session :=
        { s with
          conversation_history := s.conversation_history ++ [m]
          user_info :=
            { mergeInfo s.user_info (extract_info_from_message e m) with
              phone := some (pyOr (extract_info_from_message e m).phone (pyStrip m)) }
          state := .collecting_email
          retry_count := 0 }
       (s', store, get_next_question s')) := by
  simp only [process_message, hst, handle_phone_collection, hval, if_true]

theorem accept_email_step (e : Env) (s : Session) (store : List Record) (m : String)
    (hst : s.state = .collecting_email)
    (hval : is_valid_email e (pyOr (extract_info_from_message e m).email (pyStrip m)) = true) :
    process_message e s store m =
      (let s' : Session :=
        { s with
          conversation_history := s.conversation_history ++ [m]
          user_info :=
            { mergeInfo s.user_info (extract_info_from_message e m) with
              email := some (pyOr (extract_info_from_message e m).email (pyStrip m)) }
          state := .collecting_date
          retry_count := 0 }
       (s', store, get_next_question s')) := by
  simp only [process_message, hst, handle_email_collection, hval, if_true]

theorem accept_date_step (e : Env) (s : Session) (store : List Record) (m : String)
    (hst : s.state = .collecting_date)
    (htr : optTruthy (extract_info_from_message e m).appointment_date = true)
    (hval : is_valid_date e ((extract_info_from_message e m).appointment_date.getD "") = true) :
    process_message e s store m =
      (let s' : Session :=
        { s with
          conversation_history := s.conversation_history ++ [m]
          user_info :=
            { mergeInfo s.user_info (extract_info_from_message e m) with
              appointment_date := (extract_info_from_message e m).appointment_date }
          state := .collecting_time
          retry_count := 0 }
       (s', store, get_next_question s')) := by
  simp only [process_message, hst, handle_date_collection, htr, hval, Bool.and_self, if_true]

theorem accept_time_step (e : Env) (s : Session) (store : List Record) (m : String)
    (hst : s.state = .collecting_time)
    (htr : optTruthy (if optTruthy (extract_info_from_message e m).appointment_time then
        (extract_info_from_message e m).appointment_time
      else fallbackTimeLower (pyLower m).toList) = true)
    (hval : is_valid_time ((if optTruthy (extract_info_from_message e m).appointment_time then
        (extract_info_from_message e m).appointment_time
      else fallbackTimeLower (pyLower m).toList).getD "") = true) :
    process_message e s store m =
      (let s' : Session :=
        { s with
          conversation_history := s.conversation_history ++ [m]
          user_info :=
            { mergeInfo s.user_info (extract_info_from_message e m) with
              appointment_time :=
                if optTruthy (extract_info_from_message e m).appointment_time then
                  (extract_info_from_message e m).appointment_time
                else fallbackTimeLower (pyLower m).toList }
          state := .collecting_reason
          retry_count := 0 }
       (s', store, get_next_question s')) := by
  simp only [process_message, hst, handle_time_collection, htr, hval, Bool.and_self, if_true]

theorem accept_reason_step (e : Env) (s : Session) (store : List Record) (m : String)
    (hst : s.state = .collecting_reason)
    (hval : (pyStrip m != "") = true) :
    process_message e s store m =
      (let s' : Session :=
        { s with
          conversation_history := s.conversation_history ++ [m]
          user_info :=
            { mergeInfo s.user_info (extract_info_from_message e m) with
              reason := some (pyStrip m) }
          state := .confirming
          retry_count := 0 }
       (s', store, get_confirmation_message s')) := by
  simp only [process_message, hst, handle_reason_collection, hval, if_true]

theorem confirm_yes_step (e : Env) (s : Session) (store : List Record) (m : String)
    (hst : s.state = .confirming)
    (haff : affirmativeTokens.contains (pyStrip (pyLower m)) = true) :
    process_message e s store m =
      (let u' := mergeInfo s.user_info (extract_info_from_message e m)
       let r := mkRecord e u'
       ({ s with
          conversation_history := s.conversation_history ++ [m]
          user_info := u'
          state := .completed },
        (if e.storeOk then store ++ [r] else store),
        { response :=
            "Perfect! Your appointment has been scheduled for "
              ++ optStr u'.appointment_date ++ " at "
              ++ optStr u'.appointment_time ++ ". We'll call you at "
              ++ optStr u'.phone
              ++ ". You should also receive a confirmation email at "
              ++ optStr u'.email ++ "."
          state := "completed", appointment_data := some r })) := by
  simp only [process_message, hst, handle_confirmation, haff, if_true]

theorem confirm_no_step (e : Env) (s : Session) (store : List Record) (m : String)
    (hst : s.state = .confirming)
    (hnaff : affirmativeTokens.contains (pyStrip (pyLower m)) = false)
    (hneg : negativeTokens.contains (pyStrip (pyLower m)) = true) :
    process_message e s store m =
      ({ s with
          conversation_history := s.conversation_history ++ [m]
          user_info := mergeInfo s.user_info (extract_info_from_message e m) },
        store,
        { response := "What would you like to change? Please let me know which information needs to be updated."
          state := "editing" }) := by
  simp only [process_message, hst, handle_confirmation, hnaff, hneg, if_true, if_false,
    Bool.false_eq_true]

/-- One rejected message at a retry-bounded collecting state: the state is
kept, the merge still runs, `retry_count` goes up by one, nothing is stored,
and the result carries the reset action exactly when the new count reaches
`max_retries`. -/
theorem reject_step (e : Env) (s : Session) (store : List Record) (m : String)
    (hst : s.state ∈ retryBoundedStates)
    (hrej : rejectsAt e s.state s.user_info.name m = true) :
    (process_message e s store m).1 =
      { s with
        conversation_history := s.conversation_history ++ [m]
        user_info := mergeInfo s.user_info (extract_info_from_message e m)
        retry_count := s.retry_count + 1 }
      ∧ (process_message e s store m).2.1 = store
      ∧ (process_message e s store m).2.2.action =
          (if s.max_retries ≤ s.retry_count + 1 then some "reset" else none) := by
  simp only [retryBoundedStates, List.mem_cons, List.mem_singleton, List.not_mem_nil,
    or_false] at hst
  rcases hst with h5 | h5 | h5 | h5 | h5 <;>
    rw [h5] at hrej <;>
    simp only [rejectsAt, Bool.and_eq_true, beq_iff_eq, Bool.not_eq_true'] at hrej
  · -- COLLECTING_NAME
    obtain ⟨⟨hexn, hprior⟩, hraw⟩ := hrej
    have hm : (mergeInfo s.user_info (extract_info_from_message e m)).name
        = s.user_info.name := mergeInfo_name_of_exnone _ _ hexn
    simp only [process_message, h5, handle_name_collection, hm, hprior, hraw,
      Bool.and_false, if_false, Bool.false_eq_true]
    refine ⟨?_, ?_, ?_⟩ <;> first
    | trivial
    | (split <;> rfl)
  · -- COLLECTING_PHONE
    simp only [process_message, h5, handle_phone_collection, hrej, if_false,
      Bool.false_eq_true]
    refine ⟨?_, ?_, ?_⟩ <;> first
    | trivial
    | (split <;> rfl)
  · -- COLLECTING_EMAIL
    simp only [process_message, h5, handle_email_collection, hrej, if_false,
      Bool.false_eq_true]
    refine ⟨?_, ?_, ?_⟩ <;> first
    | trivial
    | (split <;> rfl)
  · -- COLLECTING_DATE
    simp only [process_message, h5, handle_date_collection, hrej, if_false,
      Bool.false_eq_true]
    refine ⟨?_, ?_, ?_⟩ <;> first
    | trivial
    | (split <;> rfl)
  · -- COLLECTING_TIME
    simp only [process_message, h5, handle_time_collection, hrej, if_false,
      Bool.false_eq_true]
    refine ⟨?_, ?_, ?_⟩ <;> first
    | trivial
    | (split <;> rfl)

/-! ### The state-field invariant and its preservation -/

theorem recordComplete_mkRecord (e : Env) (u : UserInfo) :
    recordComplete (mkRecord e u) = allSet u := rfl

theorem allSet_merge (u : UserInfo) (ex : Extracted) (h : allSet u = true) :
    allSet (mergeInfo u ex) = true := by
  simp only [allSet, Bool.and_eq_true] at h ⊢
  obtain ⟨⟨⟨⟨⟨h1, h2⟩, h3⟩, h4⟩, h5⟩, h6⟩ := h
  simp [mergeInfo_name_isSome, mergeInfo_phone_isSome, mergeInfo_email_isSome,
    mergeInfo_date_isSome, mergeInfo_time_isSome, mergeInfo_reason,
    h1, h2, h3, h4, h5, h6]

theorem invHolds_process (e : Env) (s : Session) (store : List Record) (m : String)
    (h : invHolds s = true) : invHolds (process_message e s store m).1 = true := by
  cases hs : s.state
  case idle =>
    simp only [process_message, hs]
    split_ifs with hcb
    · simp [invHolds]
    · simp [invHolds, hs]
  case collecting_name =>
    simp only [process_message, hs, handle_name_collection]
    split_ifs with h1 h2 h3
    · simp only [invHolds]
      exact optTruthy_isSome _ (Bool.and_elim_left h1)
    · simp [invHolds]
    · simp [invHolds]
    · simp [invHolds]
  case collecting_phone =>
    simp only [invHolds, hs] at h
    simp only [process_message, hs, handle_phone_collection]
    split_ifs <;> simp [invHolds, mergeInfo_name_isSome, h]
  case collecting_email =>
    simp only [invHolds, hs, Bool.and_eq_true] at h
    simp only [process_message, hs, handle_email_collection]
    split_ifs <;>
      simp [invHolds, mergeInfo_name_isSome, mergeInfo_phone_isSome, h.1, h.2]
  case collecting_date =>
    simp only [invHolds, hs, Bool.and_eq_true] at h
    obtain ⟨⟨h1, h2⟩, h3⟩ := h
    simp only [process_message, hs, handle_date_collection]
    split_ifs with hc hr
    · have h4 := optTruthy_isSome _ (Bool.and_elim_left hc)
      simp [invHolds, mergeInfo_name_isSome, mergeInfo_phone_isSome,
        mergeInfo_email_isSome, h1, h2, h3, h4]
    · simp [invHolds, mergeInfo_name_isSome, mergeInfo_phone_isSome,
        mergeInfo_email_isSome, h1, h2, h3]
    · simp [invHolds, mergeInfo_name_isSome, mergeInfo_phone_isSome,
        mergeInfo_email_isSome, h1, h2, h3]
  case collecting_time =>
    simp only [invHolds, hs, Bool.and_eq_true] at h
    obtain ⟨⟨⟨h1, h2⟩, h3⟩, h4⟩ := h
    simp only [process_message, hs, handle_time_collection]
    generalize (if optTruthy (extract_info_from_message e m).appointment_time then
        (extract_info_from_message e m).appointment_time
      else fallbackTimeLower (pyLower m).toList) = ts
    split_ifs with hc hr
    · have h5 := optTruthy_isSome _ (Bool.and_elim_left hc)
      simp [invHolds, mergeInfo_name_isSome, mergeInfo_phone_isSome,
        mergeInfo_email_isSome, mergeInfo_date_isSome, h1, h2, h3, h4, h5]
    · simp [invHolds, mergeInfo_name_isSome, mergeInfo_phone_isSome,
        mergeInfo_email_isSome, mergeInfo_date_isSome, h1, h2, h3, h4]
    · simp [invHolds, mergeInfo_name_isSome, mergeInfo_phone_isSome,
        mergeInfo_email_isSome, mergeInfo_date_isSome, h1, h2, h3, h4]
  case collecting_reason =>
    simp only [invHolds, hs, Bool.and_eq_true] at h
    obtain ⟨⟨⟨⟨h1, h2⟩, h3⟩, h4⟩, h5⟩ := h
    simp only [process_message, hs, handle_reason_collection]
    split_ifs with hc
    · simp [invHolds, allSet, mergeInfo_name_isSome, mergeInfo_phone_isSome,
        mergeInfo_email_isSome, mergeInfo_date_isSome, mergeInfo_time_isSome,
        h1, h2, h3, h4, h5]
    · simp [invHolds, hs, mergeInfo_name_isSome, mergeInfo_phone_isSome,
        mergeInfo_email_isSome, mergeInfo_date_isSome, mergeInfo_time_isSome,
        h1, h2, h3, h4, h5]
  case confirming =>
    simp only [invHolds, hs] at h
    simp only [process_message, hs, handle_confirmation]
    split_ifs with h1 h2 <;> simp [invHolds, hs, allSet_merge _ _ h]
  case completed =>
    simp only [invHolds, hs] at h
    simp only [process_message, hs]
    simp [invHolds, hs, allSet_merge _ _ h]

theorem store_process (e : Env) (s : Session) (store : List Record) (m : String)
    (hinv : invHolds s = true)
    (hstore : ∀ r ∈ store, recordComplete r = true) :
    ∀ r ∈ (process_message e s store m).2.1, recordComplete r = true := by
  cases hs : s.state
  case confirming =>
    simp only [invHolds, hs] at hinv
    simp only [process_message, hs, handle_confirmation]
    split_ifs with ha hw hn
    · intro r hr
      rcases List.mem_append.mp hr with hr | hr
      · exact hstore r hr
      · rw [List.mem_singleton] at hr
        subst hr
        rw [recordComplete_mkRecord]
        exact allSet_merge _ _ hinv
    · exact hstore
    · exact hstore
    · exact hstore
  all_goals simp only [process_message, hs]
  all_goals first
    | exact hstore
    | (split_ifs <;> exact hstore)

theorem invHolds_run (e : Env) (msgs : List String) (s : Session) (store : List Record)
    (hinv : invHolds s = true) (hstore : ∀ r ∈ store, recordComplete r = true) :
    invHolds (runMessages e (s, store) msgs).1 = true
      ∧ ∀ r ∈ (runMessages e (s, store) msgs).2, recordComplete r = true := by
  induction msgs generalizing s store with
  | nil => exact ⟨hinv, hstore⟩
  | cons m ms ih =>
    simp only [runMessages]
    exact ih _ _ (invHolds_process e s store m hinv) (store_process e s store m hinv hstore)

/-! ### Projection forms of the step lemmas, for chaining runs -/

theorem mergeInfo_name_of_unone (u : UserInfo) (ex : Extracted)
    (h : u.name = none) : (mergeInfo u ex).name = ex.name := by
  simp [mergeInfo, h]

theorem idle_intent_proj (e : Env) (s : Session) (store : List Record) (m : String)
    (hst : s.state = .idle) (h : is_requesting_callback m = true) :
    (process_message e s store m).1.state = .collecting_name
    ∧ (process_message e s store m).1.user_info.name
        = (mergeInfo s.user_info (extract_info_from_message e m)).name
    ∧ (process_message e s store m).2.1 = store := by
  rw [idle_intent_step e s store m hst h]
  exact ⟨rfl, rfl, rfl⟩

theorem accept_name_proj (e : Env) (s : Session) (store : List Record) (m : String)
    (hst : s.state = .collecting_name)
    (hun : s.user_info.name = none)
    (hval : is_valid_name (pyStrip m) = true) :
    (process_message e s store m).1.state = .collecting_phone
    ∧ (process_message e s store m).1.retry_count = 0
    ∧ (process_message e s store m).1.user_info.name
        = some ((extractName m).getD (pyStrip m))
    ∧ (process_message e s store m).2.1 = store := by
  rcases hx : extractName m with _ | n
  · have hexn : (extract_info_from_message e m).name = none := by
      rw [extract_name_proj, hx]
    rw [accept_name_raw_step e s store m hst hun hexn hval]
    exact ⟨rfl, rfl, rfl, rfl⟩
  · have hv := extractName_valid m n hx
    have hne := is_valid_name_ne_empty n hv
    have hm : (mergeInfo s.user_info (extract_info_from_message e m)).name = some n := by
      rw [mergeInfo_name_of_unone _ _ hun, extract_name_proj, hx]
    have hcond : (optTruthy (mergeInfo s.user_info (extract_info_from_message e m)).name
        && is_valid_name
            ((mergeInfo s.user_info (extract_info_from_message e m)).name.getD "")) = true := by
      rw [hm]
      simp [optTruthy, hne, hv]
    rw [accept_name_merged_step e s store m hst hcond]
    refine ⟨rfl, rfl, ?_, rfl⟩
    show (mergeInfo s.user_info (extract_info_from_message e m)).name
        = some ((some n).getD (pyStrip m))
    rw [hm, Option.getD_some]

theorem accept_phone_proj (e : Env) (s : Session) (store : List Record) (m : String)
    (hst : s.state = .collecting_phone)
    (hval : is_valid_phone (pyOr (extract_info_from_message e m).phone (pyStrip m)) = true) :
    (process_message e s store m).1.state = .collecting_email
    ∧ (process_message e s store m).1.retry_count = 0
    ∧ (process_message e s store m).1.user_info.phone
        = some (pyOr (extract_info_from_message e m).phone (pyStrip m))
    ∧ (process_message e s store m).1.user_info.name
        = (mergeInfo s.user_info (extract_info_from_message e m)).name
    ∧ (process_message e s store m).2.1 = store := by
  rw [accept_phone_step e s store m hst hval]
  exact ⟨rfl, rfl, rfl, rfl, rfl⟩

theorem accept_email_proj (e : Env) (s : Session) (store : List Record) (m : String)
    (hst : s.state = .collecting_email)
    (hval : is_valid_email e (pyOr (extract_info_from_message e m).email (pyStrip m)) = true) :
    (process_message e s store m).1.state = .collecting_date
    ∧ (process_message e s store m).1.retry_count = 0
    ∧ (process_message e s store m).1.user_info.email
        = some (pyOr (extract_info_from_message e m).email (pyStrip m))
    ∧ (process_message e s store m).1.user_info.name
        = (mergeInfo s.user_info (extract_info_from_message e m)).name
    ∧ (process_message e s store m).1.user_info.phone
        = (mergeInfo s.user_info (extract_info_from_message e m)).phone
    ∧ (process_message e s store m).2.1 = store := by
  rw [accept_email_step e s store m hst hval]
  exact ⟨rfl, rfl, rfl, rfl, rfl, rfl⟩

theorem accept_date_proj (e : Env) (s : Session) (store : List Record) (m : String)
    (hst : s.state = .collecting_date)
    (htr : optTruthy (extract_info_from_message e m).appointment_date = true)
    (hval : is_valid_date e ((extract_info_from_message e m).appointment_date.getD "") = true) :
    (process_message e s store m).1.state = .collecting_time
    ∧ (process_message e s store m).1.retry_count = 0
    ∧ (process_message e s store m).1.user_info.appointment_date
        = (extract_info_from_message e m).appointment_date
    ∧ (process_message e s store m).1.user_info.name
        = (mergeInfo s.user_info (extract_info_from_message e m)).name
    ∧ (process_message e s store m).1.user_info.phone
        = (mergeInfo s.user_info (extract_info_from_message e m)).phone
    ∧ (process_message e s store m).1.user_info.email
        = (mergeInfo s.user_info (extract_info_from_message e m)).email
    ∧ (process_message e s store m).2.1 = store := by
  rw [accept_date_step e s store m hst htr hval]
  exact ⟨rfl, rfl, rfl, rfl, rfl, rfl, rfl⟩

theorem accept_time_proj (e : Env) (s : Session) (store : List Record) (m : String)
    (hst : s.state = .collecting_time)
    (htr : optTruthy (collected_time e m) = true)
    (hval : is_valid_time ((collected_time e m).getD "") = true) :
    (process_message e s store m).1.state = .collecting_reason
    ∧ (process_message e s store m).1.retry_count = 0
    ∧ (process_message e s store m).1.user_info.appointment_time = collected_time e m
    ∧ (process_message e s store m).1.user_info.name
        = (mergeInfo s.user_info (extract_info_from_message e m)).name
    ∧ (process_message e s store m).1.user_info.phone
        = (mergeInfo s.user_info (extract_info_from_message e m)).phone
    ∧ (process_message e s store m).1.user_info.email
        = (mergeInfo s.user_info (extract_info_from_message e m)).email
    ∧ (process_message e s store m).1.user_info.appointment_date
        = (mergeInfo s.user_info (extract_info_from_message e m)).appointment_date
    ∧ (process_message e s store m).2.1 = store := by
  rw [accept_time_step e s store m hst htr hval]
  exact ⟨rfl, rfl, rfl, rfl, rfl, rfl, rfl, rfl⟩

theorem accept_reason_proj (e : Env) (s : Session) (store : List Record) (m : String)
    (hst : s.state = .collecting_reason)
    (hval : (pyStrip m != "") = true) :
    (process_message e s store m).1.state = .confirming
    ∧ (process_message e s store m).1.retry_count = 0
    ∧ (process_message e s store m).1.user_info.reason = some (pyStrip m)
    ∧ (process_message e s store m).1.user_info.name
        = (mergeInfo s.user_info (extract_info_from_message e m)).name
    ∧ (process_message e s store m).1.user_info.phone
        = (mergeInfo s.user_info (extract_info_from_message e m)).phone
    ∧ (process_message e s store m).1.user_info.email
        = (mergeInfo s.user_info (extract_info_from_message e m)).email
    ∧ (process_message e s store m).1.user_info.appointment_date
        = (mergeInfo s.user_info (extract_info_from_message e m)).appointment_date
    ∧ (process_message e s store m).1.user_info.appointment_time
        = (mergeInfo s.user_info (extract_info_from_message e m)).appointment_time
    ∧ (process_message e s store m).2.1 = store := by
  rw [accept_reason_step e s store m hst hval]
  exact ⟨rfl, rfl, rfl, rfl, rfl, rfl, rfl, rfl, rfl⟩

theorem confirm_yes_proj (e : Env) (s : Session) (store : List Record) (m : String)
    (hst : s.state = .confirming)
    (haff : affirmativeTokens.contains (pyStrip (pyLower m)) = true) :
    (process_message e s store m).1.state = .completed
    ∧ (process_message e s store m).2.1
        = (if e.storeOk then
            store ++ [mkRecord e (mergeInfo s.user_info (extract_info_from_message e m))]
          else store) := by
  rw [confirm_yes_step e s store m hst haff]
  exact ⟨rfl, rfl⟩

/-- C1 (amended): a full happy-path run.  The intent message must not itself
yield an extracted name (otherwise that captured name wins over the name
turn), and the stored values are the ones the engine collects: extracted
name or raw trimmed name message, extracted-or-raw phone and email, the
date and time extracted from their turns, and the trimmed reason. -/
theorem C1_amended
    (e : Env) (m1 m2 m3 m4 m5 m6 m7 m8 : String)
    (hw : e.storeOk = true)
    (h1 : is_requesting_callback m1 = true)
    (h1n : (extract_info_from_message e m1).name = none)
    (h2 : is_valid_name (pyStrip m2) = true)
    (h3 : is_valid_phone (pyOr (extract_info_from_message e m3).phone (pyStrip m3)) = true)
    (h4 : is_valid_email e (pyOr (extract_info_from_message e m4).email (pyStrip m4)) = true)
    (h5t : optTruthy (extract_info_from_message e m5).appointment_date = true)
    (h5v : is_valid_date e ((extract_info_from_message e m5).appointment_date.getD "") = true)
    (h6t : optTruthy (collected_time e m6) = true)
    (h6v : is_valid_time ((collected_time e m6).getD "") = true)
    (h7 : (pyStrip m7 != "") = true)
    (h8 : affirmativeTokens.contains (pyStrip (pyLower m8)) = true) :
    (runMessages e (freshSession, []) [m1, m2, m3, m4, m5, m6, m7]).1.state = .confirming
    ∧ (runMessages e (freshSession, []) [m1, m2, m3, m4, m5, m6, m7, m8]).1.state = .completed
    ∧ (runMessages e (freshSession, []) [m1, m2, m3, m4, m5, m6, m7, m8]).2 =
        [{ name := some ((extractName m2).getD (pyStrip m2))
           phone := some (pyOr (extract_info_from_message e m3).phone (pyStrip m3))
           email := some (pyOr (extract_info_from_message e m4).email (pyStrip m4))
           appointment_date := (extract_info_from_message e m5).appointment_date
           appointment_time := collected_time e m6
           reason := some (pyStrip m7)
           created_at := e.nowIso
           status := "confirmed" }] := by
  obtain ⟨dv, hdv⟩ : ∃ v, (extract_info_from_message e m5).appointment_date = some v := by
    rcases hq : (extract_info_from_message e m5).appointment_date with _ | v
    · rw [hq] at h5t; simp [optTruthy] at h5t
    · exact ⟨v, rfl⟩
  obtain ⟨tv, htv⟩ : ∃ v, collected_time e m6 = some v := by
    rcases hq : collected_time e m6 with _ | v
    · rw [hq] at h6t; simp [optTruthy] at h6t
    · exact ⟨v, rfl⟩
  -- message 1: the appointment intent
  obtain ⟨a1, b1, c1⟩ := idle_intent_proj e freshSession [] m1 rfl h1
  set s1 := (process_message e freshSession [] m1).1 with hs1
  set d1 := (process_message e freshSession [] m1).2.1 with hd1
  have nm1 : s1.user_info.name = none := by
    rw [b1, mergeInfo_name_of_unone _ _ rfl, h1n]
  -- message 2: the name
  obtain ⟨a2, r2, nm2, c2⟩ := accept_name_proj e s1 d1 m2 a1 nm1 h2
  set s2 := (process_message e s1 d1 m2).1 with hs2
  set d2 := (process_message e s1 d1 m2).2.1 with hd2
  -- message 3: the phone
  obtain ⟨a3, r3, ph3, q3, c3⟩ := accept_phone_proj e s2 d2 m3 a2 h3
  set s3 := (process_message e s2 d2 m3).1 with hs3
  set d3 := (process_message e s2 d2 m3).2.1 with hd3
  have nm3 : s3.user_info.name = some ((extractName m2).getD (pyStrip m2)) := by
    rw [q3]; exact mergeInfo_name_some _ _ _ nm2
  -- message 4: the email
  obtain ⟨a4, r4, em4, qn4, qp4, c4⟩ := accept_email_proj e s3 d3 m4 a3 h4
  set s4 := (process_message e s3 d3 m4).1 with hs4
  set d4 := (process_message e s3 d3 m4).2.1 with hd4
  have nm4 : s4.user_info.name = some ((extractName m2).getD (pyStrip m2)) := by
    rw [qn4]; exact mergeInfo_name_some _ _ _ nm3
  have ph4 : s4.user_info.phone
      = some (pyOr (extract_info_from_message e m3).phone (pyStrip m3)) := by
    rw [qp4]; exact mergeInfo_phone_some _ _ _ ph3
  -- message 5: the date
  obtain ⟨a5, r5, dt5, qn5, qp5, qe5, c5⟩ := accept_date_proj e s4 d4 m5 a4 h5t h5v
  set s5 := (process_message e s4 d4 m5).1 with hs5
  set d5 := (process_message e s4 d4 m5).2.1 with hd5
  have nm5 : s5.user_info.name = some ((extractName m2).getD (pyStrip m2)) := by
    rw [qn5]; exact mergeInfo_name_some _ _ _ nm4
  have ph5 : s5.user_info.phone
      = some (pyOr (extract_info_from_message e m3).phone (pyStrip m3)) := by
    rw [qp5]; exact mergeInfo_phone_some _ _ _ ph4
  have em5 : s5.user_info.email
      = some (pyOr (extract_info_from_message e m4).email (pyStrip m4)) := by
    rw [qe5]; exact mergeInfo_email_some _ _ _ em4
  have dt5v : s5.user_info.appointment_date = some dv := by rw [dt5, hdv]
  -- message 6: the time
  obtain ⟨a6, r6, tm6, qn6, qp6, qe6, qd6, c6⟩ := accept_time_proj e s5 d5 m6 a5 h6t h6v
  set s6 := (process_message e s5 d5 m6).1 with hs6
  set d6 := (process_message e s5 d5 m6).2.1 with hd6
  have nm6 : s6.user_info.name = some ((extractName m2).getD (pyStrip m2)) := by
    rw [qn6]; exact mergeInfo_name_some _ _ _ nm5
  have ph6 : s6.user_info.phone
      = some (pyOr (extract_info_from_message e m3).phone (pyStrip m3)) := by
    rw [qp6]; exact mergeInfo_phone_some _ _ _ ph5
  have em6 : s6.user_info.email
      = some (pyOr (extract_info_from_message e m4).email (pyStrip m4)) := by
    rw [qe6]; exact mergeInfo_email_some _ _ _ em5
  have dt6 : s6.user_info.appointment_date = some dv := by
    rw [qd6]; exact mergeInfo_date_some _ _ _ dt5v
  have tm6v : s6.user_info.appointment_time = some tv := by rw [tm6, htv]
  -- message 7: the reason
  obtain ⟨a7, r7, rs7, qn7, qp7, qe7, qd7, qt7, c7⟩ := accept_reason_proj e s6 d6 m7 a6 h7
  set s7 := (process_message e s6 d6 m7).1 with hs7
  set d7 := (process_message e s6 d6 m7).2.1 with hd7
  have nm7 : s7.user_info.name = some ((extractName m2).getD (pyStrip m2)) := by
    rw [qn7]; exact mergeInfo_name_some _ _ _ nm6
  have ph7 : s7.user_info.phone
      = some (pyOr (extract_info_from_message e m3).phone (pyStrip m3)) := by
    rw [qp7]; exact mergeInfo_phone_some _ _ _ ph6
  have em7 : s7.user_info.email
      = some (pyOr (extract_info_from_message e m4).email (pyStrip m4)) := by
    rw [qe7]; exact mergeInfo_email_some _ _ _ em6
  have dt7 : s7.user_info.appointment_date = some dv := by
    rw [qd7]; exact mergeInfo_date_some _ _ _ dt6
  have tm7 : s7.user_info.appointment_time = some tv := by
    rw [qt7]; exact mergeInfo_time_some _ _ _ tm6v
  -- message 8: the affirmative confirmation
  obtain ⟨a8, st8⟩ := confirm_yes_proj e s7 d7 m8 a7 h8
  set s8 := (process_message e s7 d7 m8).1 with hs8
  set d8 := (process_message e s7 d7 m8).2.1 with hd8
  have g7 : runMessages e (freshSession, []) [m1, m2, m3, m4, m5, m6, m7] = (s7, d7) := rfl
  have g8 : runMessages e (freshSession, []) [m1, m2, m3, m4, m5, m6, m7, m8] = (s8, d8) := rfl
  have hrec : mkRecord e (mergeInfo s7.user_info (extract_info_from_message e m8)) =
      { name := some ((extractName m2).getD (pyStrip m2))
        phone := some (pyOr (extract_info_from_message e m3).phone (pyStrip m3))
        email := some (pyOr (extract_info_from_message e m4).email (pyStrip m4))
        appointment_date := some dv
        appointment_time := some tv
        reason := some (pyStrip m7)
        created_at := e.nowIso
        status := "confirmed" } := by
    simp only [mkRecord, mergeInfo_name_some _ _ _ nm7, mergeInfo_phone_some _ _ _ ph7,
      mergeInfo_email_some _ _ _ em7, mergeInfo_date_some _ _ _ dt7,
      mergeInfo_time_some _ _ _ tm7, mergeInfo_reason, rs7]
  refine ⟨?_, ?_, ?_⟩
  · rw [g7]; exact a7
  · rw [g8]; exact a8
  · rw [g8, hdv, htv]
    show d8 = _
    rw [st8, if_pos hw, hrec, c7, c6, c5, c4, c3, c2, c1, List.nil_append]

/-! ### Wrapper-level lemmas for the retry bound -/

theorem tool_no_reset (e : Env) (s : Session) (store : List Record) (m : String)
    (hact : (process_message e s store m).2.2.action = none) :
    (appointment_tool_run e s store m).1 = (process_message e s store m).1
    ∧ (appointment_tool_run e s store m).2.1 = (process_message e s store m).2.1 := by
  constructor <;>
    simp [appointment_tool_run, hact]

theorem tool_reset (e : Env) (s : Session) (store : List Record) (m : String)
    (hact : (process_message e s store m).2.2.action = some "reset") :
    (appointment_tool_run e s store m).1 = resetSession (process_message e s store m).1
    ∧ (appointment_tool_run e s store m).2.1 = (process_message e s store m).2.1 := by
  constructor <;>
    simp [appointment_tool_run, hact]

/-- A rejected message leaves the rejection condition for later messages
intact: the state is unchanged, and (in the name state) the name field is
unchanged because the rejected message extracted no name. -/
theorem rejectsAt_stable (e : Env) (s : Session) (store : List Record) (m m' : String)
    (hst : s.state ∈ retryBoundedStates)
    (hrej : rejectsAt e s.state s.user_info.name m = true)
    (hrej' : rejectsAt e s.state s.user_info.name m' = true) :
    rejectsAt e (process_message e s store m).1.state
      (process_message e s store m).1.user_info.name m' = true := by
  obtain ⟨hA, -, -⟩ := reject_step e s store m hst hrej
  rw [hA]
  show rejectsAt e s.state (mergeInfo s.user_info (extract_info_from_message e m)).name m'
      = true
  simp only [retryBoundedStates, List.mem_cons, List.mem_singleton, List.not_mem_nil,
    or_false] at hst
  rcases hst with h5 | h5 | h5 | h5 | h5 <;> rw [h5] at hrej hrej' ⊢
  · simp only [rejectsAt, Bool.and_eq_true, beq_iff_eq] at hrej
    rw [show rejectsAt e .collecting_name
          (mergeInfo s.user_info (extract_info_from_message e m)).name m'
        = rejectsAt e .collecting_name s.user_info.name m' by
      rw [mergeInfo_name_of_exnone _ _ hrej.1.1]]
    exact hrej'
  all_goals simpa only [rejectsAt] using hrej'

/-- C3 (amended): for the five retry-bounded collecting states, three
consecutive rejected messages from a fresh retry count drive `retry_count`
through 1 and 2 without changing the state, and the third triggers the
reset action, which the `AppointmentTool` wrapper turns into a session
reset to IDLE with a fresh empty `UserInfo` and `retry_count` 0.  The
COLLECTING_REASON state is not covered: it has no retry bound. -/
theorem C3_amended (e : Env) (s : Session) (store : List Record)
    (m1 m2 m3 : String)
    (hst : s.state ∈ retryBoundedStates)
    (hr0 : s.retry_count = 0) (hmax : s.max_retries = 3)
    (hj1 : rejectsAt e s.state s.user_info.name m1 = true)
    (hj2 : rejectsAt e s.state s.user_info.name m2 = true)
    (hj3 : rejectsAt e s.state s.user_info.name m3 = true) :
    (appointment_tool_run e s store m1).1.state = s.state
    ∧ (appointment_tool_run e s store m1).1.retry_count = 1
    ∧ (appointment_tool_run e
        (appointment_tool_run e s store m1).1
        (appointment_tool_run e s store m1).2.1 m2).1.state = s.state
    ∧ (appointment_tool_run e
        (appointment_tool_run e s store m1).1
        (appointment_tool_run e s store m1).2.1 m2).1.retry_count = 2
    ∧ (appointment_tool_run e
        (appointment_tool_run e
          (appointment_tool_run e s store m1).1
          (appointment_tool_run e s store m1).2.1 m2).1
        (appointment_tool_run e
          (appointment_tool_run e s store m1).1
          (appointment_tool_run e s store m1).2.1 m2).2.1 m3).1
        = { state := .idle, user_info := {}, conversation_history := []
            retry_count := 0, max_retries := 3 }
    ∧ (appointment_tool_run e
        (appointment_tool_run e
          (appointment_tool_run e s store m1).1
          (appointment_tool_run e s store m1).2.1 m2).1
        (appointment_tool_run e
          (appointment_tool_run e s store m1).1
          (appointment_tool_run e s store m1).2.1 m2).2.1 m3).2.1 = store := by
  -- step 1: retry count 0 -> 1, below the bound
  obtain ⟨hA1, hB1, hC1⟩ := reject_step e s store m1 hst hj1
  have hact1 : (process_message e s store m1).2.2.action = none := by
    rw [hC1, hr0, hmax]
    norm_num
  obtain ⟨u1, v1⟩ := tool_no_reset e s store m1 hact1
  set s1 := (process_message e s store m1).1 with hs1
  set d1 := (process_message e s store m1).2.1 with hd1
  have st1 : s1.state = s.state := by rw [hA1]
  have rc1 : s1.retry_count = 1 := by rw [hA1, hr0]
  have mx1 : s1.max_retries = 3 := by rw [hA1, hmax]
  have hst1 : s1.state ∈ retryBoundedStates := st1 ▸ hst
  have hj2' : rejectsAt e s1.state s1.user_info.name m2 = true :=
    rejectsAt_stable e s store m1 m2 hst hj1 hj2
  have hj3a : rejectsAt e s1.state s1.user_info.name m3 = true :=
    rejectsAt_stable e s store m1 m3 hst hj1 hj3
  -- step 2: retry count 1 -> 2, still below the bound
  obtain ⟨hA2, hB2, hC2⟩ := reject_step e s1 d1 m2 hst1 hj2'
  have hact2 : (process_message e s1 d1 m2).2.2.action = none := by
    rw [hC2, rc1, mx1]
    norm_num
  obtain ⟨u2, v2⟩ := tool_no_reset e s1 d1 m2 hact2
  set s2 := (process_message e s1 d1 m2).1 with hs2
  set d2 := (process_message e s1 d1 m2).2.1 with hd2
  have st2 : s2.state = s.state := by rw [hA2]; exact st1
  have rc2 : s2.retry_count = 2 := by rw [hA2, rc1]
  have mx2 : s2.max_retries = 3 := by rw [hA2]; exact mx1
  have hst2 : s2.state ∈ retryBoundedStates := st2 ▸ hst
  have hj3' : rejectsAt e s2.state s2.user_info.name m3 = true :=
    rejectsAt_stable e s1 d1 m2 m3 hst1 hj2' hj3a
  -- step 3: retry count reaches the bound, the wrapper resets the session
  obtain ⟨hA3, hB3, hC3⟩ := reject_step e s2 d2 m3 hst2 hj3'
  have hact3 : (process_message e s2 d2 m3).2.2.action = some "reset" := by
    rw [hC3, rc2, mx2]
    norm_num
  obtain ⟨u3, v3⟩ := tool_reset e s2 d2 m3 hact3
  have hmx3 : (process_message e s2 d2 m3).1.max_retries = 3 := by rw [hA3]; exact mx2
  refine ⟨?_, ?_, ?_, ?_, ?_, ?_⟩
  · rw [u1]; exact st1
  · rw [u1]; exact rc1
  · rw [u1, v1, u2]; exact st2
  · rw [u1, v1, u2]; exact rc2
  · rw [u1, v1, u2, v2, u3]
    simp [resetSession, hmx3]
  · rw [u1, v1, u2, v2, v3, hB3, hB2, hB1]

/-! ### Further helper lemmas -/

theorem mergeInfo_allSet (u : UserInfo) (ex : Extracted) (h : allSet u = true) :
    mergeInfo u ex = u := by
  obtain ⟨n, p, em, ad, tt, r⟩ := u
  simp only [allSet, Bool.and_eq_true] at h
  obtain ⟨⟨⟨⟨⟨hn, hp⟩, he⟩, hd⟩, ht⟩, hr⟩ := h
  cases n <;> cases p <;> cases em <;> cases ad <;> cases tt <;> cases r <;>
    simp_all [mergeInfo]

/-- C2 (amended): when the store append fails on an affirmative reply, the
exception is swallowed, the session still advances to COMPLETED, nothing is
persisted, and the caller is told the booking completed. -/
theorem C2_amended (e : Env) (s : Session) (store : List Record) (m : String)
    (hw : e.storeOk = false)
    (hst : s.state = .confirming)
    (haff : affirmativeTokens.contains (pyStrip (pyLower m)) = true) :
    (process_message e s store m).1.state = .completed
    ∧ (process_message e s store m).2.1 = store
    ∧ (process_message e s store m).2.2.state = "completed" := by
  rw [confirm_yes_step e s store m hst haff]
  refine ⟨rfl, ?_, rfl⟩
  show (if e.storeOk then _ else store) = store
  rw [hw]
  rfl

/-- C4 (amended): only the name handler honours an already-populated field.
At COLLECTING_NAME a populated-and-valid (post-merge) name advances with
`retry_count` reset; the phone and email handlers accept only the current
message's extraction or the raw message, and the date and time handlers
accept only the current message's extraction. -/
theorem C4_amended (e : Env) (s : Session) (store : List Record) (m : String) :
    (s.state = .collecting_name →
      (optTruthy (mergeInfo s.user_info (extract_info_from_message e m)).name
        && is_valid_name
            ((mergeInfo s.user_info (extract_info_from_message e m)).name.getD "")) = true →
      (process_message e s store m).1.state = .collecting_phone
      ∧ (process_message e s store m).1.retry_count = 0)
    ∧ (s.state = .collecting_phone →
        is_valid_phone (pyOr (extract_info_from_message e m).phone (pyStrip m)) = true →
        (process_message e s store m).1.state = .collecting_email
        ∧ (process_message e s store m).1.retry_count = 0)
    ∧ (s.state = .collecting_email →
        is_valid_email e (pyOr (extract_info_from_message e m).email (pyStrip m)) = true →
        (process_message e s store m).1.state = .collecting_date
        ∧ (process_message e s store m).1.retry_count = 0)
    ∧ (s.state = .collecting_date →
        optTruthy (extract_info_from_message e m).appointment_date = true →
        is_valid_date e ((extract_info_from_message e m).appointment_date.getD "") = true →
        (process_message e s store m).1.state = .collecting_time
        ∧ (process_message e s store m).1.retry_count = 0)
    ∧ (s.state = .collecting_time →
        optTruthy (collected_time e m) = true →
        is_valid_time ((collected_time e m).getD "") = true →
        (process_message e s store m).1.state = .collecting_reason
        ∧ (process_message e s store m).1.retry_count = 0) := by
  refine ⟨?_, ?_, ?_, ?_, ?_⟩
  · intro hst h
    rw [accept_name_merged_step e s store m hst h]
    exact ⟨rfl, rfl⟩
  · intro hst h
    rw [accept_phone_step e s store m hst h]
    exact ⟨rfl, rfl⟩
  · intro hst h
    rw [accept_email_step e s store m hst h]
    exact ⟨rfl, rfl⟩
  · intro hst h1 h2
    rw [accept_date_step e s store m hst h1 h2]
    exact ⟨rfl, rfl⟩
  · intro hst h1 h2
    rw [accept_time_step e s store m hst h1 h2]
    exact ⟨rfl, rfl⟩

/-- C5: the extraction-merge step of `process_message` never changes a field
that is already set, whatever the extraction found; `reason` is never
touched by the merge at all. -/
theorem C5_holds (u : UserInfo) (ex : Extracted) :
    (∀ v, u.name = some v → (mergeInfo u ex).name = some v)
    ∧ (∀ v, u.phone = some v → (mergeInfo u ex).phone = some v)
    ∧ (∀ v, u.email = some v → (mergeInfo u ex).email = some v)
    ∧ (∀ v, u.appointment_date = some v → (mergeInfo u ex).appointment_date = some v)
    ∧ (∀ v, u.appointment_time = some v → (mergeInfo u ex).appointment_time = some v)
    ∧ (mergeInfo u ex).reason = u.reason :=
  ⟨fun v h => mergeInfo_name_some u ex v h,
   fun v h => mergeInfo_phone_some u ex v h,
   fun v h => mergeInfo_email_some u ex v h,
   fun v h => mergeInfo_date_some u ex v h,
   fun v h => mergeInfo_time_some u ex v h,
   mergeInfo_reason u ex⟩

/-- Witness for C5 at a fully collected `UserInfo` and a conflicting
extraction. -/
theorem C5_holds_witness :
    (mergeInfo uAllW exOtherW).name = some "Jane Doe"
    ∧ (mergeInfo uAllW exOtherW).phone = some "1234567890"
    ∧ (mergeInfo uAllW exOtherW).email = some "jane@example.com"
    ∧ (mergeInfo uAllW exOtherW).appointment_date = some "2024-06-11"
    ∧ (mergeInfo uAllW exOtherW).appointment_time = some "14:30"
    ∧ (mergeInfo uAllW exOtherW).reason = uAllW.reason :=
  ⟨(C5_holds uAllW exOtherW).1 "Jane Doe" rfl,
   (C5_holds uAllW exOtherW).2.1 "1234567890" rfl,
   (C5_holds uAllW exOtherW).2.2.1 "jane@example.com" rfl,
   (C5_holds uAllW exOtherW).2.2.2.1 "2024-06-11" rfl,
   (C5_holds uAllW exOtherW).2.2.2.2.1 "14:30" rfl,
   (C5_holds uAllW exOtherW).2.2.2.2.2⟩

/-- C6: from a fresh session, reaching CONFIRMING implies all six `UserInfo`
fields are non-null, and every record ever appended to the store is
complete. -/
theorem C6_holds (e : Env) (msgs : List String) :
    ((runMessages e (freshSession, []) msgs).1.state = .confirming →
      allSet (runMessages e (freshSession, []) msgs).1.user_info = true)
    ∧ ∀ r ∈ (runMessages e (freshSession, []) msgs).2, recordComplete r = true := by
  obtain ⟨h1, h2⟩ := invHolds_run e msgs freshSession []
    rfl (by intro r hr; cases hr)
  refine ⟨?_, h2⟩
  intro hc
  unfold invHolds at h1
  rw [hc] at h1
  exact h1

/-- Witness for C6: a concrete run that reaches CONFIRMING. -/
theorem C6_holds_witness :
    (runMessages envW (freshSession, [])
      ["I want to book appointment", "Jane Doe", "1234567890", "jane@example.com",
       "tomorrow", "2:30 pm", "discuss pricing"]).1.state = FormState.confirming
    ∧ allSet (runMessages envW (freshSession, [])
        ["I want to book appointment", "Jane Doe", "1234567890", "jane@example.com",
         "tomorrow", "2:30 pm", "discuss pricing"]).1.user_info = true :=
  ⟨rfl, (C6_holds envW
      ["I want to book appointment", "Jane Doe", "1234567890", "jane@example.com",
       "tomorrow", "2:30 pm", "discuss pricing"]).1 rfl⟩

/-- C7: "today" resolves to the reference date, "tomorrow" to the next day;
`_days_until_weekday` always lands 1-7 days ahead on the requested weekday
and rolls to +7 when the reference date is already that weekday; with a
Wednesday reference date, "next monday" resolves to 5 days later. -/
theorem C7_holds :
    (∀ e : Env, (parse_date_from_message e "today").1 = some (formatDate e.today))
    ∧ (∀ e : Env, (parse_date_from_message e "tomorrow").1 = some (formatDate (e.today + 1)))
    ∧ (∀ t w : Nat, t < 7 → w < 7 →
        1 ≤ daysUntilWeekday t w ∧ daysUntilWeekday t w ≤ 7
        ∧ ((t : Int) + daysUntilWeekday t w) % 7 = (w : Int)
        ∧ (t = w → daysUntilWeekday t w = 7))
    ∧ (∀ e : Env, weekdayOf e.today = 2 →
        (parse_date_from_message e "next monday").1 = some (formatDate (e.today + 5))) := by
  refine ⟨fun _ => rfl, fun _ => rfl, ?_, ?_⟩
  · intro t w ht hw
    simp only [daysUntilWeekday]
    split_ifs with hc
    · exact ⟨by omega, by omega, by omega, fun htw => by omega⟩
    · exact ⟨by omega, by omega, by omega, fun htw => by omega⟩
  · intro e h
    have hbase : (parse_date_from_message e "next monday").1
        = some (formatDate (addDays e.today (daysUntilWeekday (weekdayOf e.today) 0))) := rfl
    rw [hbase, h]
    have h5 : daysUntilWeekday 2 0 = 5 := by decide
    rw [h5]
    have ha : addDays e.today 5 = e.today + 5 := by
      simp only [addDays]
      omega
    rw [ha]

/-- Witness for C7 at the concrete reference dates 2024-06-10 (Monday) and
2024-06-12 (Wednesday). -/
theorem C7_holds_witness :
    (parse_date_from_message envW "tomorrow").1 = some (formatDate (envW.today + 1))
    ∧ (1 ≤ daysUntilWeekday 2 0 ∧ daysUntilWeekday 2 0 ≤ 7
        ∧ ((2 : Int) + daysUntilWeekday 2 0) % 7 = (0 : Int)
        ∧ (2 = 0 → daysUntilWeekday 2 0 = 7))
    ∧ (parse_date_from_message { envW with today := 19886 } "next monday").1
        = some (formatDate (19886 + 5)) :=
  ⟨C7_holds.2.1 envW,
   C7_holds.2.2.1 2 0 (by decide) (by decide),
   C7_holds.2.2.2 { envW with today := 19886 } (by decide)⟩

/-- C8: the three time patterns are tried in order with first match winning,
the 12-hour conversion adds 12 for pm hours other than 12 and maps 12 am to
0, and the five normalization examples hold. -/
theorem C8_holds :
    (∀ e : Env, (parse_date_from_message e "2:30 pm").2 = some "14:30")
    ∧ (∀ e : Env, (parse_date_from_message e "2 pm").2 = some "14:00")
    ∧ (∀ e : Env, (parse_date_from_message e "14:05").2 = some "14:05")
    ∧ (∀ e : Env, (parse_date_from_message e "12 am").2 = some "00:00")
    ∧ (∀ e : Env, (parse_date_from_message e "12 pm").2 = some "12:00")
    ∧ (∀ h : Nat, conv12 h "pm" = if h = 12 then 12 else h + 12)
    ∧ (∀ h : Nat, conv12 h "am" = if h = 12 then 0 else h) := by
  refine ⟨fun _ => rfl, fun _ => rfl, fun _ => rfl, fun _ => rfl, fun _ => rfl, ?_, ?_⟩
  · intro h
    by_cases hh : h = 12 <;> simp [conv12, hh]
  · intro h
    by_cases hh : h = 12 <;> simp [conv12, hh]

/-- C9 refuted as stated: `ConversationalForm.is_valid_name` accepts a
51-letter name (it has no upper length bound), while the claimed condition
requires the trimmed length to be at most 50; and the `form_handler`
variant rejects an apostrophe the claimed condition accepts. -/
theorem C9_counterexample :
    is_valid_name (String.mk (List.replicate 51 'a')) = true
    ∧ specValidName (String.mk (List.replicate 51 'a')) = false
    ∧ fh_is_valid_name (String.mk (List.replicate 51 'a')) = false
    ∧ specValidName "O'Brien" = true
    ∧ fh_is_valid_name "O'Brien" = false := by
  exact ⟨by decide, by decide, by decide, by decide, by decide⟩

/-- C9 (amended): `ConversationalForm.is_valid_name` holds exactly when the
trimmed length is at least 2 (no upper bound) and every trimmed character
is a letter, whitespace, apostrophe or hyphen; the `form_handler` variant
additionally caps the length at 50 but allows only letters and whitespace. -/
theorem C9_amended (s : String) :
    (is_valid_name s = true ↔
      2 ≤ (pyStrip s).length ∧ ∀ c ∈ (pyStrip s).toList, isNameChar c = true)
    ∧ (fh_is_valid_name s = true ↔
      2 ≤ (pyStrip s).length ∧ (pyStrip s).length ≤ 50
        ∧ ∀ c ∈ (pyStrip s).toList, (isAsciiAlpha c || isPySpace c) = true) := by
  constructor
  · unfold is_valid_name
    split_ifs with h
    · simp only [Bool.or_eq_true, beq_iff_eq, decide_eq_true_eq] at h
      constructor
      · intro hf
        exact hf.elim
      · rintro ⟨hlen, -⟩
        rcases h with rfl | h
        · have hz : (pyStrip "").length = 0 := rfl
          omega
        · omega
    · simp only [Bool.or_eq_true, beq_iff_eq, decide_eq_true_eq, not_or, not_lt] at h
      constructor
      · intro hall
        exact ⟨h.2, by simpa [List.all_eq_true] using hall⟩
      · rintro ⟨-, hc⟩
        simpa [List.all_eq_true] using hc
  · unfold fh_is_valid_name
    split_ifs with h
    · simp only [Bool.or_eq_true, beq_iff_eq, decide_eq_true_eq] at h
      constructor
      · intro hf
        exact hf.elim
      · rintro ⟨hlen, hub, -⟩
        rcases h with (rfl | h) | h
        · have hz : (pyStrip "").length = 0 := rfl
          omega
        · omega
        · omega
    · simp only [Bool.or_eq_true, beq_iff_eq, decide_eq_true_eq, not_or, not_lt] at h
      constructor
      · intro hall
        exact ⟨h.1.2, h.2, by simpa [List.all_eq_true] using hall⟩
      · rintro ⟨-, -, hc⟩
        simpa [List.all_eq_true] using hc

/-- Witness for C9 (amended) at a concrete name. -/
theorem C9_amended_witness :
    is_valid_name "Jane O'Doe-Smith" = true ∧ fh_is_valid_name "Jane Doe" = true :=
  ⟨(C9_amended "Jane O'Doe-Smith").1.mpr ⟨by decide, by decide⟩,
   (C9_amended "Jane Doe").2.mpr ⟨by decide, by decide, by decide⟩⟩

/-- C10: in CONFIRMING (with the six fields collected, as on every reachable
session there), a negative reply returns state string "editing" but leaves
the session's state at CONFIRMING and the `UserInfo` unchanged, and a
subsequent affirmative reply completes the booking with the original data. -/
theorem C10_holds (e : Env) (s : Session) (store : List Record) (m m' : String)
    (hst : s.state = .confirming)
    (hall : allSet s.user_info = true)
    (hnaff : affirmativeTokens.contains (pyStrip (pyLower m)) = false)
    (hneg : negativeTokens.contains (pyStrip (pyLower m)) = true)
    (haff : affirmativeTokens.contains (pyStrip (pyLower m')) = true)
    (hw : e.storeOk = true) :
    (process_message e s store m).2.2.state = "editing"
    ∧ (process_message e s store m).1.state = .confirming
    ∧ (process_message e s store m).1.user_info = s.user_info
    ∧ (process_message e (process_message e s store m).1 store m').1.state = .completed
    ∧ (process_message e (process_message e s store m).1 store m').2.1
        = store ++ [mkRecord e s.user_info] := by
  have hm := mergeInfo_allSet s.user_info (extract_info_from_message e m) hall
  have hstep := confirm_no_step e s store m hst hnaff hneg
  rw [hm] at hstep
  have hst2 : (process_message e s store m).1.state = .confirming := by rw [hstep]; exact hst
  have hu2 : (process_message e s store m).1.user_info = s.user_info := by rw [hstep]
  obtain ⟨x1, x2⟩ := confirm_yes_proj e (process_message e s store m).1 store m' hst2 haff
  refine ⟨?_, hst2, hu2, x1, ?_⟩
  · rw [hstep]
  · rw [x2, hu2, mergeInfo_allSet s.user_info (extract_info_from_message e m') hall,
      if_pos hw]

/-- Witness for C10: "no" then "yes" on a concrete CONFIRMING session. -/
theorem C10_holds_witness :
    (process_message envW sessionConfirm [] "no").2.2.state = "editing"
    ∧ (process_message envW sessionConfirm [] "no").1.state = FormState.confirming
    ∧ (process_message envW sessionConfirm [] "no").1.user_info = sessionConfirm.user_info
    ∧ (process_message envW (process_message envW sessionConfirm [] "no").1 [] "yes").1.state
        = FormState.completed
    ∧ (process_message envW (process_message envW sessionConfirm [] "no").1 [] "yes").2.1
        = [] ++ [mkRecord envW sessionConfirm.user_info] :=
  C10_holds envW sessionConfirm [] "no" "yes" rfl rfl rfl rfl rfl rfl

/-- C1 refuted as stated: the conversation opened with "call me back"
satisfies every validity hypothesis of the claim, yet the persisted record
carries the name "back", captured by extraction from the intent message,
not the supplied valid name "Jane Doe". -/
theorem C1_counterexample :
    is_requesting_callback "call me back" = true
    ∧ is_valid_name (pyStrip "Jane Doe") = true
    ∧ is_valid_phone "1234567890" = true
    ∧ envW.validEmail "jane@example.com" = true
    ∧ is_valid_date envW "2024-06-11" = true
    ∧ is_valid_time "14:30" = true
    ∧ (pyStrip "discuss pricing" != "") = true
    ∧ affirmativeTokens.contains "yes" = true
    ∧ (runMessages envW (freshSession, []) ceMsgs).1.state = FormState.completed
    ∧ (runMessages envW (freshSession, []) ceMsgs).2 =
        [{ name := some "back", phone := some "1234567890"
           email := some "jane@example.com", appointment_date := some "2024-06-11"
           appointment_time := some "14:30", reason := some "discuss pricing"
           created_at := "2024-06-10T12:00:00", status := "confirmed" }]
    ∧ (some "back" : Option String) ≠ some "Jane Doe" :=
  ⟨rfl, rfl, rfl, rfl, rfl, rfl, rfl, rfl, rfl, rfl, by decide⟩

/-- Witness for C1 (amended): the concrete happy-path run. -/
theorem C1_amended_witness :
    (runMessages envW (freshSession, [])
      ["I want to book appointment", "Jane Doe", "1234567890", "jane@example.com",
       "tomorrow", "2:30 pm", "discuss pricing"]).1.state = FormState.confirming
    ∧ (runMessages envW (freshSession, []) happyMsgs).1.state = FormState.completed
    ∧ (runMessages envW (freshSession, []) happyMsgs).2 =
        [{ name := some "Jane Doe", phone := some "1234567890"
           email := some "jane@example.com", appointment_date := some "2024-06-11"
           appointment_time := some "14:30", reason := some "discuss pricing"
           created_at := "2024-06-10T12:00:00", status := "confirmed" }] :=
  C1_amended envW "I want to book appointment" "Jane Doe" "1234567890"
    "jane@example.com" "tomorrow" "2:30 pm" "discuss pricing" "yes"
    rfl rfl rfl rfl rfl rfl rfl rfl rfl rfl rfl rfl

/-- C2 refuted as stated: with the store unwritable, an affirmative reply in
CONFIRMING still advances the session past CONFIRMING to COMPLETED, persists
nothing, and reports completion. -/
theorem C2_counterexample :
    envF.storeOk = false
    ∧ sessionConfirm.state = FormState.confirming
    ∧ (process_message envF sessionConfirm [] "yes").1.state = FormState.completed
    ∧ FormState.completed ≠ FormState.confirming
    ∧ (process_message envF sessionConfirm [] "yes").2.1 = ([] : List Record)
    ∧ (process_message envF sessionConfirm [] "yes").2.2.state = "completed" :=
  ⟨rfl, rfl, rfl, by decide, rfl, rfl⟩

/-- Witness for C2 (amended) at the concrete failing store. -/
theorem C2_amended_witness :
    (process_message envF sessionConfirm [] "yes").1.state = FormState.completed
    ∧ (process_message envF sessionConfirm [] "yes").2.1 = ([] : List Record)
    ∧ (process_message envF sessionConfirm [] "yes").2.2.state = "completed" :=
  C2_amended envF sessionConfirm [] "yes" rfl rfl rfl

/-- C3 refuted as stated: at COLLECTING_REASON three consecutive invalid
(whitespace-only, hence empty-trimmed) messages leave the session exactly
where it was - no retry is counted, no reset happens, the state never
returns to IDLE. -/
theorem C3_counterexample :
    sessionReason.state = FormState.collecting_reason
    ∧ sessionReason.max_retries = 3
    ∧ pyStrip " " = ""
    ∧ (appointment_tool_run envW
        (appointment_tool_run envW
          (appointment_tool_run envW sessionReason [] " ").1
          (appointment_tool_run envW sessionReason [] " ").2.1 " ").1
        (appointment_tool_run envW
          (appointment_tool_run envW sessionReason [] " ").1
          (appointment_tool_run envW sessionReason [] " ").2.1 " ").2.1 " ").1.state
      = FormState.collecting_reason
    ∧ FormState.collecting_reason ≠ FormState.idle
    ∧ (appointment_tool_run envW
        (appointment_tool_run envW
          (appointment_tool_run envW sessionReason [] " ").1
          (appointment_tool_run envW sessionReason [] " ").2.1 " ").1
        (appointment_tool_run envW
          (appointment_tool_run envW sessionReason [] " ").1
          (appointment_tool_run envW sessionReason [] " ").2.1 " ").2.1 " ").1.user_info
      = sessionReason.user_info
    ∧ (appointment_tool_run envW
        (appointment_tool_run envW
          (appointment_tool_run envW sessionReason [] " ").1
          (appointment_tool_run envW sessionReason [] " ").2.1 " ").1
        (appointment_tool_run envW
          (appointment_tool_run envW sessionReason [] " ").1
          (appointment_tool_run envW sessionReason [] " ").2.1 " ").2.1 " ").1.retry_count
      = 0 :=
  ⟨rfl, rfl, rfl, rfl, by decide, rfl, rfl⟩

/-- Witness for C3 (amended): three rejected messages at COLLECTING_PHONE
reset the session through the `AppointmentTool` wrapper. -/
theorem C3_amended_witness :
    (appointment_tool_run envW
      (appointment_tool_run envW
        (appointment_tool_run envW
          { freshSession with state := FormState.collecting_phone } [] "abc").1
        (appointment_tool_run envW
          { freshSession with state := FormState.collecting_phone } [] "abc").2.1
        "abc").1
      (appointment_tool_run envW
        (appointment_tool_run envW
          { freshSession with state := FormState.collecting_phone } [] "abc").1
        (appointment_tool_run envW
          { freshSession with state := FormState.collecting_phone } [] "abc").2.1
        "abc").2.1
      "abc").1
    = { state := FormState.idle, user_info := {}, conversation_history := []
        retry_count := 0, max_retries := 3 } :=
  (C3_amended envW { freshSession with state := FormState.collecting_phone } []
    "abc" "abc" "abc" (by decide) rfl rfl rfl rfl rfl).2.2.2.2.1

/-- C4 refuted as stated: a reachable session at COLLECTING_PHONE whose
phone field was already populated (from the intent turn) and is valid does
not advance on a message with nothing extractable - the handler ignores the
stored field, stays in COLLECTING_PHONE and increments `retry_count`. -/
theorem C4_counterexample :
    (runMessages envW (freshSession, [])
      ["call me back at 123-456-7890", "ok"]).1.state = FormState.collecting_phone
    ∧ (runMessages envW (freshSession, [])
        ["call me back at 123-456-7890", "ok"]).1.user_info.phone = some "1234567890"
    ∧ is_valid_phone "1234567890" = true
    ∧ (runMessages envW (freshSession, []) c4Msgs).1.state = FormState.collecting_phone
    ∧ (runMessages envW (freshSession, []) c4Msgs).1.retry_count = 1
    ∧ (runMessages envW (freshSession, []) c4Msgs).1.user_info.phone = some "1234567890" :=
  ⟨rfl, rfl, rfl, rfl, rfl, rfl⟩

/-- Witness for C4 (amended): the phone handler accepts the current
message's extraction. -/
theorem C4_amended_witness :
    (process_message envW { freshSession with state := FormState.collecting_phone } []
      "123-456-7890").1.state = FormState.collecting_email
    ∧ (process_message envW { freshSession with state := FormState.collecting_phone } []
        "123-456-7890").1.retry_count = 0 :=
  (C4_amended envW { freshSession with state := FormState.collecting_phone } []
    "123-456-7890").2.1 rfl rfl
